import Mathlib

/-!
Verification development for the VSS enhanced-field extraction engine
(`src/vss_enhanced_extractor_v2.py`, `src/extractors/base_extractor.py`,
`src/normalizers/field_normalizers.py`, `src/validators/field_validators.py`,
`src/config/constants.py`, `src/config/patterns.py`, `src/config/data_models.py`).

The Python code is shallowly embedded: pure functions become Lean functions,
Python `float` arithmetic is modelled over `ℚ` (only comparisons against exact
decimal constants occur), Python `int` becomes `Nat`/`Int`, exceptions become
`Except String`, and `None`-able values become `Option`.  Regular-expression
matching is embedded by direct recursive scanners implementing the exact
backtracking semantics of each concrete pattern used by the source (each
scanner is annotated with the pattern it implements).  Strings are processed
as `List Char`; Python `str.lower`/`str.upper` are modelled for ASCII and the
Vietnamese letters that occur in the source patterns (identity elsewhere).
-/

/-! ## Python string primitives -/

/-- Python `\d` / `str.isdigit` for ASCII digits. -/
def pyIsDigit (c : Char) : Bool :=
  '0' ≤ c ∧ c ≤ '9'

/-- Python `\s` whitespace class (space, tab, newline, CR, FF, VT). -/
def pyIsSpace (c : Char) : Bool :=
  c = ' ' ∨ c = '\t' ∨ c = '\n' ∨ c = '\r' ∨ c = '\x0b' ∨ c = '\x0c'

/-- The uppercase Vietnamese letters appearing in the source character classes. -/
def vnUpperChars : List Char :=
  "ÀÁẢÃẠÂẤẦẨẪẬĂẮẰẲẴẶÈÉẺẼẸÊẾỀỂỄỆÍÌỈĨỊÒÓỎÕỌÔỐỒỔỖỘƠỚỜỞỠỢÙÚỦŨỤƯỨỪỬỮỰỲÝỶỸỴĐ".data

/-- The lowercase Vietnamese letters appearing in the source character classes. -/
def vnLowerChars : List Char :=
  "àáảãạâấầẩẫậăắằẳẵặèéẻẽẹêếềểễệíìỉĩịòóỏõọôốồổỗộơớờởỡợùúủũụưứừửữựỳýỷỹỵđ".data

/-- Model of Python `str.lower` on one character: ASCII plus the Vietnamese
letters of the source patterns; identity elsewhere. -/
def pyLowerChar (c : Char) : Char :=
  if 'A' ≤ c ∧ c ≤ 'Z' then Char.ofNat (c.toNat + 32)
  else match (vnUpperChars.zip vnLowerChars).find? (fun p => p.1 = c) with
    | some p => p.2
    | none => c

/-- Model of Python `str.upper` on one character (inverse direction). -/
def pyUpperChar (c : Char) : Char :=
  if 'a' ≤ c ∧ c ≤ 'z' then Char.ofNat (c.toNat - 32)
  else match (vnLowerChars.zip vnUpperChars).find? (fun p => p.1 = c) with
    | some p => p.2
    | none => c

/-- Python `str.lower`. -/
def pyLower (s : String) : String :=
  String.mk (s.data.map pyLowerChar)

/-- Python `str.upper`. -/
def pyUpper (s : String) : String :=
  String.mk (s.data.map pyUpperChar)

/-- A character counts as a letter for the source patterns: ASCII letters or
one of the Vietnamese letters (either case). -/
def pyIsLetter (c : Char) : Bool :=
  ('a' ≤ c ∧ c ≤ 'z') ∨ ('A' ≤ c ∧ c ≤ 'Z') ∨
    vnUpperChars.contains c ∨ vnLowerChars.contains c

/-- Python `\w` word character, restricted to the alphabet of this code base
(ASCII alphanumerics, underscore, Vietnamese letters). -/
def pyIsWord (c : Char) : Bool :=
  pyIsLetter c ∨ pyIsDigit c ∨ c = '_'

/-- Strip leading whitespace (`str.strip`, left part). -/
def pyStripLeft (cs : List Char) : List Char :=
  cs.dropWhile pyIsSpace

/-- Python `str.strip` on a character list. -/
def pyStripList (cs : List Char) : List Char :=
  ((cs.dropWhile pyIsSpace).reverse.dropWhile pyIsSpace).reverse

/-- Python `str.strip`. -/
def pyStrip (s : String) : String :=
  String.mk (pyStripList s.data)

/-- Python `str.rstrip(chars)` for a one-character strip set. -/
def pyRStripChar (s : String) (c : Char) : String :=
  String.mk ((s.data.reverse.dropWhile (fun x => x = c)).reverse)

/-- `needle in hay` on character lists (Python substring containment). -/
def listContainsSub (hay needle : List Char) : Bool :=
  match hay with
  | [] => needle = []
  | _ :: rest => needle.isPrefixOf hay || listContainsSub rest needle

/-- Python `needle in hay` substring test. -/
def pyContains (hay needle : String) : Bool :=
  listContainsSub hay.data needle.data

/-- Python `hay.find(needle)`: index of first occurrence, `-1` if absent
(we only use it where the needle occurs, and return the index as `Nat`,
with the full length as not-found sentinel consistent with slicing use). -/
def pyFindAux (hay needle : List Char) (idx : Nat) : Option Nat :=
  match hay with
  | [] => if needle = [] then some idx else none
  | _ :: rest =>
    if needle.isPrefixOf hay then some idx else pyFindAux rest needle (idx + 1)

/-- Python `str.title`: begin-of-word cased characters uppercased, the rest
lowercased; word state tracked by letter adjacency. -/
def pyTitleGo (cs : List Char) (prevAlpha : Bool) : List Char :=
  match cs with
  | [] => []
  | c :: rest =>
    if pyIsLetter c then
      (if prevAlpha then pyLowerChar c else pyUpperChar c) :: pyTitleGo rest true
    else
      c :: pyTitleGo rest false

/-- Python `str.title`. -/
def pyTitle (s : String) : String :=
  String.mk (pyTitleGo s.data false)

/-- Value of a list of ASCII digit characters as a natural number
(Python `int(...)` on a non-empty digit string). -/
def digitsToNat (cs : List Char) : Nat :=
  cs.foldl (fun acc c => acc * 10 + (c.toNat - '0'.toNat)) 0

/-- Decimal digit expansion of a natural number (no sign). -/
def natDigits (n : Nat) : List Char :=
  (Nat.toDigits 10 n)

/-- Python `f"{n:,}"`: decimal digits of `n` grouped by thousands with commas. -/
def pyGroupDigits (n : Nat) : String :=
  let ds := natDigits n
  let rec go : List Char → Nat → List Char
    | [], _ => []
    | c :: rest, k =>
      -- building from the right: `rest.length` tells the position from the left
      c :: (if rest = [] then go rest (k + 1)
            else if (rest.length) % 3 = 0 then ',' :: go rest (k + 1)
            else go rest (k + 1))
  String.mk (go ds 0)

/-! ## Quality levels and confidence scoring
(`src/config/constants.py`, `src/extractors/base_extractor.py`) -/

/-- `ExtractionQuality` enum (`constants.py`). -/
inductive ExtractionQuality
  | excellent
  | good
  | moderate
  | poor
  | failed
deriving DecidableEq, Repr

/-- The `.value` strings of `ExtractionQuality`. -/
def ExtractionQuality.value : ExtractionQuality → String
  | .excellent => "excellent"
  | .good => "good"
  | .moderate => "moderate"
  | .poor => "poor"
  | .failed => "failed"

/-- The ordering rank failed < poor < moderate < good < excellent used by the
spec for quality monotonicity. -/
def qualityRank : ExtractionQuality → Nat
  | .failed => 0
  | .poor => 1
  | .moderate => 2
  | .good => 3
  | .excellent => 4

/-- `METHOD_WEIGHTS` from `constants.py`, with the `.get(method, 0.5)` default
used by `calculate_confidence_score`. -/
def METHOD_WEIGHTS (method : String) : ℚ :=
  if method = "css_selector" then 1
  else if method = "regex_pattern" then 9/10
  else if method = "xpath_simulation" then 9/10
  else if method = "context_search" then 8/10
  else if method = "fallback_pattern" then 5/10
  else 5/10

/-- Python `max(a, b)` on rationals (computably, so the kernel can evaluate). -/
def pyMaxQ (a b : ℚ) : ℚ := if a < b then b else a

/-- Python `min(a, b)` on rationals. -/
def pyMinQ (a b : ℚ) : ℚ := if b < a then b else a

/-- Python `abs` on rationals. -/
def pyAbsQ (a : ℚ) : ℚ := if a < 0 then -a else a

/-- `ERROR_PENALTIES['validation_error_penalty']` from `constants.py`. -/
def validation_error_penalty : ℚ := 1/10

/-- `ERROR_PENALTIES['data_quality_bonus']` from `constants.py`. -/
def data_quality_bonus : ℚ := 2/10

/-- `BaseExtractor.calculate_confidence_score` (`base_extractor.py`):
`confidence = base - len(errors)*0.1`, then `confidence *= METHOD_WEIGHTS.get(method, 0.5)`,
then clamped to `[0, 1]`. -/
def calculate_confidence_score (base_confidence : ℚ) (validation_errors : List String)
    (method : String) : ℚ :=
  let confidence := base_confidence - (validation_errors.length : ℚ) * validation_error_penalty
  let confidence := confidence * METHOD_WEIGHTS method
  pyMaxQ 0 (pyMinQ 1 confidence)

/-- `BaseExtractor.determine_quality_level` (`base_extractor.py`). -/
def determine_quality_level (confidence : ℚ) : ExtractionQuality :=
  if confidence ≥ 9/10 then .excellent
  else if confidence ≥ 7/10 then .good
  else if confidence ≥ 5/10 then .moderate
  else if confidence > 0 then .poor
  else .failed

/-- C7: the confidence-to-tier mapping is exactly the claimed bucket partition
on [0,1], and it is monotone for the order failed < poor < moderate < good
< excellent. -/
theorem C7_quality_tiers (c c1 c2 : ℚ) (hc0 : 0 ≤ c) (hc1 : c ≤ 1)
    (h1 : 0 ≤ c1) (h12 : c1 < c2) (h2 : c2 ≤ 1) :
    ((determine_quality_level c = .excellent ↔ 9/10 ≤ c) ∧
     (determine_quality_level c = .good ↔ 7/10 ≤ c ∧ c < 9/10) ∧
     (determine_quality_level c = .moderate ↔ 5/10 ≤ c ∧ c < 7/10) ∧
     (determine_quality_level c = .poor ↔ 0 < c ∧ c < 5/10) ∧
     (determine_quality_level c = .failed ↔ c = 0)) ∧
    qualityRank (determine_quality_level c1) ≤ qualityRank (determine_quality_level c2) := by
  constructor
  · unfold determine_quality_level
    split_ifs with hA hB hC hD <;>
      refine ⟨?_, ?_, ?_, ?_, ?_⟩ <;>
      simp_all <;> first
        | linarith
        | (intro h; linarith)
  · unfold determine_quality_level
    split_ifs <;> simp [qualityRank] <;> linarith

/-- Witness for C7 at concrete confidences 0.8, 1/3, 3/4. -/
theorem C7_quality_tiers_witness :
    (determine_quality_level (8/10) = .good ↔ 7/10 ≤ (8/10 : ℚ) ∧ (8/10 : ℚ) < 9/10) ∧
    qualityRank (determine_quality_level (1/3)) ≤ qualityRank (determine_quality_level (3/4)) := by
  have h := C7_quality_tiers (8/10) (1/3) (3/4)
    (by norm_num) (by norm_num) (by norm_num) (by norm_num) (by norm_num)
  exact ⟨h.1.2.1, h.2⟩

/-! ## Phone normalizer (`PhoneNormalizer.normalize`, `field_normalizers.py`) -/

/-- The source regex `^0[1-9][0-9]{8,9}$` as a direct matcher, read off the
pattern left to right. -/
def vnPhoneMatch (cs : List Char) : Bool :=
  match cs with
  | c0 :: c1 :: rest =>
    c0 = '0' && ('1' ≤ c1 && c1 ≤ '9') && rest.all pyIsDigit &&
      (rest.length = 8 || rest.length = 9)
  | _ => false

/-- `PhoneNormalizer.normalize` (`field_normalizers.py` 34-55): strip `\D`,
rewrite a long-enough leading `84` to `0`, return the digits when they match
the Vietnamese pattern, otherwise the original input. -/
def PhoneNormalizer.normalize (phone : String) : String :=
  if phone = "" then ""
  else
    let digits := phone.data.filter pyIsDigit
    let digits := if ['8', '4'] <+: digits ∧ 10 ≤ digits.length
                  then '0' :: digits.drop 2 else digits
    if vnPhoneMatch digits then String.mk digits else phone

/-- Modelled from the spec wording of C4 (independent formulation): strip all
non-digits; when at least ten digits remain and they begin with `84`, replace
that international code with a leading `0`; keep the result iff it is a 10- or
11-character string starting `0`, second character `1`-`9`, rest digits;
otherwise return the input unchanged. -/
def phone_spec_model (s : String) : String :=
  let ds := s.data.filter pyIsDigit
  let ds := if 10 ≤ ds.length ∧ ds.take 2 = ['8', '4'] then '0' :: ds.drop 2 else ds
  let ok := (ds.length = 10 || ds.length = 11) && ds.take 1 = ['0'] &&
    ((ds.drop 1).take 1).all (fun c => '1' ≤ c && c ≤ '9') &&
    (ds.drop 2).all pyIsDigit
  if ok then String.mk ds else s

/-- The two matcher formulations agree. -/
theorem vnPhoneMatch_eq_spec (cs : List Char) :
    vnPhoneMatch cs =
      ((cs.length = 10 || cs.length = 11) && cs.take 1 = ['0'] &&
        ((cs.drop 1).take 1).all (fun c => '1' ≤ c && c ≤ '9') &&
        (cs.drop 2).all pyIsDigit) := by
  match cs with
  | [] => rfl
  | [c] => simp [vnPhoneMatch]
  | c0 :: c1 :: rest =>
    simp only [vnPhoneMatch, List.take, List.drop, List.all_cons, List.all_nil,
      List.length_cons]
    by_cases h0 : c0 = '0' <;> by_cases h1 : ('1' ≤ c1 && c1 ≤ '9') = true <;>
      simp [h0, h1, Bool.and_comm, Bool.and_assoc, Bool.and_left_comm] <;>
      constructor <;> intro h <;> omega

/-- C4: the phone normalizer agrees with the spec-modelled pipeline on every
input, and in particular on the three spec examples. -/
theorem C4_phone_normalizer :
    (∀ s, PhoneNormalizer.normalize s = phone_spec_model s) ∧
    PhoneNormalizer.normalize "+84 912 345 678" = "0912345678" ∧
    PhoneNormalizer.normalize "0912345678" = "0912345678" ∧
    PhoneNormalizer.normalize "abc" = "abc" := by
  refine ⟨?_, by decide, by decide, by decide⟩
  intro s
  by_cases h0 : s = ""
  · subst h0; decide
  · unfold PhoneNormalizer.normalize phone_spec_model
    rw [if_neg h0]
    have hcond : (['8', '4'] <+: s.data.filter pyIsDigit ∧
        10 ≤ (s.data.filter pyIsDigit).length) ↔
        (10 ≤ (s.data.filter pyIsDigit).length ∧
          (s.data.filter pyIsDigit).take 2 = ['8', '4']) := by
      rw [List.prefix_iff_eq_take, and_comm]
      constructor
      · rintro ⟨hl, hp⟩; exact ⟨hl, hp.symm⟩
      · rintro ⟨hl, hp⟩; exact ⟨hl, hp.symm⟩
    simp only [hcond, vnPhoneMatch_eq_spec]

/-! ## Income normalizer (`IncomeNormalizer.normalize`, `field_normalizers.py`) -/

/-- `NormalizedIncome` dataclass (`data_models.py`); the Python `int` amount is
a `Nat` (all amounts produced are non-negative). -/
structure NormalizedIncome where
  amount : Nat
  currency : String
  formatted : String
  original : String
  parsing_successful : Bool := true
  multiplier_applied : Option String := none
deriving DecidableEq, Repr

/-- `currency_multipliers` of `NormalizationMappingsConfig.get_normalization_maps`
(`patterns.py` 284-292), in the dictionary insertion order the source iterates. -/
def currency_multipliers : List (String × Nat) :=
  [("triệu", 1000000), ("million", 1000000), ("nghìn", 1000), ("thousand", 1000),
   ("k", 1000), ("tỷ", 1000000000), ("billion", 1000000000)]

/-- `IncomeNormalizer.normalize` (`field_normalizers.py` 61-109):
keep `[\d,.]`, delete `,` and `.`, parse the digits, then scan the lowercased
raw string for the first multiplier keyword; currency is always `"VND"`. -/
def IncomeNormalizer.normalize (income : String) : Option NormalizedIncome :=
  if income = "" then none
  else
    let numeric0 := income.data.filter (fun c => pyIsDigit c ∨ c = ',' ∨ c = '.')
    let numeric := numeric0.filter (fun c => ¬ (c = ',') ∧ ¬ (c = '.'))
    if numeric ≠ [] then
      let amount0 := digitsToNat numeric
      match currency_multipliers.find? (fun p => pyContains (pyLower income) p.1) with
      | some p =>
        some { amount := amount0 * p.2, currency := "VND",
               formatted := pyGroupDigits (amount0 * p.2) ++ " VND",
               original := income, parsing_successful := true,
               multiplier_applied := some p.1 }
      | none =>
        some { amount := amount0, currency := "VND",
               formatted := pyGroupDigits amount0 ++ " VND",
               original := income, parsing_successful := true,
               multiplier_applied := none }
    else
      some { amount := 0, currency := "VND", formatted := income,
             original := income, parsing_successful := false }

/-- The multiplier the spec describes: the factor of the first keyword of the
ordered table that occurs in the lowercased raw string, `1` when none occurs. -/
def income_spec_multiplier (s : String) : Nat :=
  match currency_multipliers.find? (fun p => pyContains (pyLower s) p.1) with
  | some p => p.2
  | none => 1

/-- C5: for every raw string containing a digit the income normalizer returns
the concatenated-digit value times the first matching unit keyword, with
currency `"VND"`; in particular on the two spec examples. -/
theorem C5_income_normalizer (s : String)
    (hd : s.data.filter pyIsDigit ≠ []) :
    (∃ r, IncomeNormalizer.normalize s = some r ∧
      r.amount = digitsToNat (s.data.filter pyIsDigit) * income_spec_multiplier s ∧
      r.currency = "VND" ∧ r.parsing_successful = true) ∧
    (IncomeNormalizer.normalize "18 triệu đồng").map NormalizedIncome.amount
      = some 18000000 ∧
    (IncomeNormalizer.normalize "25,500,000 VND").map NormalizedIncome.amount
      = some 25500000 := by
  refine ⟨?_, by decide, by decide⟩
  have hne : s ≠ "" := by
    intro h
    rw [h] at hd
    exact hd rfl
  have hfilter : (s.data.filter (fun c => pyIsDigit c ∨ c = ',' ∨ c = '.')).filter
      (fun c => ¬ (c = ',') ∧ ¬ (c = '.')) = s.data.filter pyIsDigit := by
    rw [List.filter_filter]
    apply List.filter_congr
    intro c _
    by_cases h1 : c = ','
    · subst h1; decide
    · by_cases h2 : c = '.'
      · subst h2; decide
      · simp [h1, h2]
  unfold IncomeNormalizer.normalize
  rw [if_neg hne]
  simp only [hfilter]
  rw [if_pos hd]
  unfold income_spec_multiplier
  rcases hfind : currency_multipliers.find? (fun p => pyContains (pyLower s) p.1) with _ | p
  · simp only [hfind]
    exact ⟨_, rfl, (Nat.mul_one _).symm, rfl, rfl⟩
  · simp only [hfind]
    exact ⟨_, rfl, rfl, rfl, rfl⟩

/-- Witness for C5 at the concrete input `"18 triệu đồng"`. -/
theorem C5_income_normalizer_witness :
    ∃ r, IncomeNormalizer.normalize "18 triệu đồng" = some r ∧
      r.amount = digitsToNat ("18 triệu đồng".data.filter pyIsDigit) *
        income_spec_multiplier "18 triệu đồng" ∧
      r.currency = "VND" ∧ r.parsing_successful = true :=
  (C5_income_normalizer "18 triệu đồng" (by decide)).1

/-! ## Member-list normalizer (`MemberInfoNormalizer`, `field_normalizers.py`)

Each Python regex is embedded as a direct recursive scanner implementing its
exact backtracking semantics (`re.findall` scans left to right, emits group
tuples, and resumes after each match; a failed attempt advances one
character).  For every quantifier of the concrete patterns the greedy/lazy
resolution is deterministic, which the scanners implement; the one genuinely
backtracking quantifier (`[^}]*` in the JSON pattern, and the name run of
pattern 3) is implemented by an explicit longest-first retry loop. -/

/-- `MemberInfo` dataclass (`data_models.py`).  The `additional_info` field is
omitted: the source only populates it in an exception branch that the total
embedding cannot reach. -/
structure MemberInfo where
  name : String
  relationship : String
  birth_year : Option String := none
deriving DecidableEq, Repr

/-- `relationships` of `get_normalization_maps` (`patterns.py` 279-282), in
dictionary insertion order. -/
def relationships_map : List (String × String) :=
  [("con", "Con"), ("vo", "Vợ"), ("chong", "Chồng"), ("cha", "Cha"), ("me", "Mẹ"),
   ("anh", "Anh"), ("chi", "Chị"), ("em", "Em"), ("ong", "Ông"), ("ba", "Bà"),
   ("chu", "Chú"), ("co", "Cô"), ("bac", "Bác"), ("di", "Dì"), ("duong", "Dượng")]

/-- `MemberInfoNormalizer._normalize_relationship`: first synonym key contained
in the lowercased, stripped text wins; otherwise `str.title`. -/
def MemberInfoNormalizer.normalize_relationship (relationship : String) : String :=
  if relationship = "" then ""
  else
    let rel_lower := pyStrip (pyLower relationship)
    match relationships_map.find? (fun p => pyContains rel_lower p.1) with
    | some p => p.2
    | none => pyTitle relationship

/-- The relationship alternation `(Vợ|Chồng|Con|Cha|Mẹ|Anh|Chị|Em)` common to
the three structured-text patterns, in pattern order. -/
def relAlternatives : List String :=
  ["Vợ", "Chồng", "Con", "Cha", "Mẹ", "Anh", "Chị", "Em"]

/-- Consume a literal case-insensitively (Python `re.IGNORECASE`); returns the
matched source text (original case) and the remainder. -/
def matchLitCI : List Char → List Char → Option (List Char × List Char)
  | [], cs => some ([], cs)
  | _ :: _, [] => none
  | l :: ls, c :: cs =>
    if pyLowerChar c = pyLowerChar l then
      match matchLitCI ls cs with
      | some (t, rest) => some (c :: t, rest)
      | none => none
    else none

/-- Try the relationship alternatives in pattern order.  No alternative is a
(case-insensitive) prefix of another, so at most one can match at a position
and first-match equals Python alternation with downstream backtracking. -/
def matchRelAlt : List String → List Char → Option (List Char × List Char)
  | [], _ => none
  | a :: rest, cs =>
    match matchLitCI a.data cs with
    | some r => some r
    | none => matchRelAlt rest cs

/-- Continuation class of the name groups: under `re.IGNORECASE` both
`[A-Z…]` and `[a-z…\s]` collapse to all letters, the latter adding `\s`. -/
def isNameCont (c : Char) : Bool :=
  pyIsLetter c ∨ pyIsSpace c

/-- Exactly four ASCII digits. -/
def takeDigits4 : List Char → Option (List Char × List Char)
  | a :: b :: c :: d :: rest =>
    if pyIsDigit a ∧ pyIsDigit b ∧ pyIsDigit c ∧ pyIsDigit d then
      some ([a, b, c, d], rest)
    else none
  | _ => none

/-- One attempt of pattern 1
`([A-Z…][a-z…\s]+)\s*-\s*(Vợ|Chồng|Con|Cha|Mẹ|Anh|Chị|Em)\s*-\s*([0-9]{4})`
at the current position.  The greedy name run absorbs trailing whitespace, so
the following `\s*` is empty and the next character must be the dash; matching
is deterministic. -/
def p1MatchAt (cs : List Char) : Option ((String × String × String) × List Char) :=
  match cs with
  | [] => none
  | c :: rest =>
    if pyIsLetter c then
      let tailRun := rest.takeWhile isNameCont
      let afterName := rest.dropWhile isNameCont
      if tailRun = [] then none
      else
        match afterName with
        | '-' :: after1 =>
          (match matchRelAlt relAlternatives (after1.dropWhile pyIsSpace) with
           | some (relTxt, after3) =>
             (match after3.dropWhile pyIsSpace with
              | '-' :: after5 =>
                (match takeDigits4 (after5.dropWhile pyIsSpace) with
                 | some (year, restAll) =>
                   some ((String.mk (c :: tailRun), String.mk relTxt, String.mk year), restAll)
                 | none => none)
              | _ => none)
           | none => none)
        | _ => none
    else none

/-- `re.findall` loop for pattern 1 (fuel = initial text length; every match
consumes at least eight characters). -/
def p1FindAll : Nat → List Char → List (String × String × String)
  | 0, _ => []
  | _, [] => []
  | fuel + 1, c :: cs =>
    match p1MatchAt (c :: cs) with
    | some (g, rest) => g :: p1FindAll fuel rest
    | none => p1FindAll fuel cs

/-- Records built from pattern-1 matches (`field_normalizers.py` 257-265). -/
def pattern1Records (text : String) : List MemberInfo :=
  (p1FindAll text.data.length text.data).map (fun g =>
    { name := pyStrip g.1
      relationship := MemberInfoNormalizer.normalize_relationship (pyStrip g.2.1)
      birth_year := some (pyStrip g.2.2) })

/-- One attempt of pattern 2
`(Vợ|Chồng|Con|Cha|Mẹ|Anh|Chị|Em)[:\s-]*([A-Z…][a-z…\s]+?)(?:\s*\(([0-9]{4})\))?`.
The lazy `+?` always stops after one character because the optional year group
can match empty; the year group participates only when `\s*\((\d{4})\)`
matches right after those two name characters.  An unmatched year group is the
empty string in the `findall` tuple. -/
def p2MatchAt (cs : List Char) : Option ((String × String × String) × List Char) :=
  match matchRelAlt relAlternatives cs with
  | none => none
  | some (relTxt, after1) =>
    match after1.dropWhile (fun c => c = ':' ∨ pyIsSpace c ∨ c = '-') with
    | c1 :: c2 :: rest =>
      if pyIsLetter c1 ∧ isNameCont c2 then
        match rest.dropWhile pyIsSpace with
        | '(' :: r2 =>
          (match takeDigits4 r2 with
           | some (year, r3) =>
             (match r3 with
              | ')' :: r4 => some ((String.mk relTxt, String.mk [c1, c2], String.mk year), r4)
              | _ => some ((String.mk relTxt, String.mk [c1, c2], ""), rest))
           | none => some ((String.mk relTxt, String.mk [c1, c2], ""), rest))
        | _ => some ((String.mk relTxt, String.mk [c1, c2], ""), rest)
      else none
    | _ => none

/-- `re.findall` loop for pattern 2. -/
def p2FindAll : Nat → List Char → List (String × String × String)
  | 0, _ => []
  | _, [] => []
  | fuel + 1, c :: cs =>
    match p2MatchAt (c :: cs) with
    | some (g, rest) => g :: p2FindAll fuel rest
    | none => p2FindAll fuel cs

/-- Records built from pattern-2 matches (`field_normalizers.py` 271-278). -/
def pattern2Records (text : String) : List MemberInfo :=
  (p2FindAll text.data.length text.data).map (fun g =>
    let name := pyStrip (pyRStripChar (pyRStripChar (pyStrip g.2.1) ',') '(')
    { name := name
      relationship := MemberInfoNormalizer.normalize_relationship g.1
      birth_year := if g.2.2 = "" then none else some g.2.2 })

/-- Word-boundary side condition of `\b`. -/
def yearBoundaryOk : Option Char → Bool
  | some p => ¬ pyIsWord p
  | none => true

/-- `\b(19|20)\d{2}\b` anchored at the current character. -/
def yearAt (a : Char) (rest : List Char) : Option String :=
  match rest with
  | b :: c :: d :: rest2 =>
    if ((a = '1' ∧ b = '9') ∨ (a = '2' ∧ b = '0')) ∧ pyIsDigit c ∧ pyIsDigit d ∧
        yearBoundaryOk rest2.head? then
      some (String.mk [a, b, c, d])
    else none
  | _ => none

/-- `re.search(r'\b(19|20)\d{2}\b', …).group(0)`: leftmost year with word
boundaries (`prev` is the character before the current position). -/
def yearSearch : List Char → Option Char → Option String
  | [], _ => none
  | a :: rest, prev =>
    if yearBoundaryOk prev then
      match yearAt a rest with
      | some y => some y
      | none => yearSearch rest (some a)
    else yearSearch rest (some a)

/-- The `(?:\s*:\s*)?(REL)` tail of pattern 3: the optional colon group is
tried first (its `\s*`/`:` steps are deterministic), then the empty group. -/
def p3Tail (cs : List Char) : Option (List Char × List Char) :=
  match cs.dropWhile pyIsSpace with
  | ':' :: r1 =>
    (match matchRelAlt relAlternatives (r1.dropWhile pyIsSpace) with
     | some r => some r
     | none => matchRelAlt relAlternatives cs)
  | _ => matchRelAlt relAlternatives cs

/-- Longest-first retry over the greedy name run of pattern 3
`([A-Z…][a-z…\s]+)(?:\s*:\s*)?(REL)`: try name lengths from the maximal run
down to 2 (the group needs two characters). -/
def p3TryLens (run afterRun : List Char) : Nat → Option ((List Char × List Char) × List Char)
  | 0 => none
  | len + 1 =>
    if len + 1 < 2 then none
    else
      match p3Tail (run.drop (len + 1) ++ afterRun) with
      | some (relTxt, rest) => some ((run.take (len + 1), relTxt), rest)
      | none => p3TryLens run afterRun len

/-- One attempt of pattern 3 at the current position. -/
def p3MatchAt (cs : List Char) : Option ((List Char × List Char) × List Char) :=
  match cs with
  | [] => none
  | c :: rest =>
    if pyIsLetter c then
      p3TryLens (c :: rest.takeWhile isNameCont) (rest.dropWhile isNameCont)
        (c :: rest.takeWhile isNameCont).length
    else none

/-- `re.findall` loop for pattern 3. -/
def p3FindAll : Nat → List Char → List (List Char × List Char)
  | 0, _ => []
  | _, [] => []
  | fuel + 1, c :: cs =>
    match p3MatchAt (c :: cs) with
    | some (g, rest) => g :: p3FindAll fuel rest
    | none => p3FindAll fuel cs

/-- Records built from pattern-3 matches (`field_normalizers.py` 284-297):
the birth year is searched in a 100-character window of the full text starting
at the first occurrence of the (stripped) name. -/
def pattern3Records (text : String) : List MemberInfo :=
  (p3FindAll text.data.length text.data).map (fun g =>
    let name := pyStrip (String.mk g.1)
    let idx := match pyFindAux text.data name.data 0 with
      | some i => i
      | none => 0
    { name := name
      relationship := MemberInfoNormalizer.normalize_relationship (pyStrip (String.mk g.2))
      birth_year := yearSearch ((text.data.drop idx).take 100) none })

/-- `MemberInfoNormalizer._extract_from_structured_text`
(`field_normalizers.py` 251-299): all three inline patterns run and their
records are concatenated. -/
def MemberInfoNormalizer.extract_from_structured_text (text : String) : List MemberInfo :=
  pattern1Records text ++ pattern2Records text ++ pattern3Records text

/-- Consume a literal case-insensitively, discarding the matched text. -/
def litCI (lit : String) (cs : List Char) : Option (List Char) :=
  (matchLitCI lit.data cs).map (fun p => p.2)

/-- Consume a literal case-sensitively. -/
def litCS (lit : String) (cs : List Char) : Option (List Char) :=
  if lit.data.isPrefixOf cs then some (cs.drop lit.data.length) else none

/-- `<td>([^<]+)</td>` of the table-row pattern: the greedy `[^<]+` run is
deterministic because the following literal starts with `<`. -/
def tdCellAt (cs : List Char) : Option (List Char × List Char) :=
  match litCI "<td>" cs with
  | none => none
  | some r1 =>
    let content := r1.takeWhile (fun c => ¬ (c = '<'))
    if content = [] then none
    else
      match litCI "</td>" (r1.dropWhile (fun c => ¬ (c = '<'))) with
      | none => none
      | some r2 => some (content, r2)

/-- One attempt of the table-row pattern
`<tr>\s*<td>([^<]+)</td>\s*<td>([^<]+)</td>\s*<td>([^<]+)</td>\s*</tr>`
(`re.IGNORECASE`). -/
def trMatchAt (cs : List Char) : Option ((String × String × String) × List Char) :=
  match litCI "<tr>" cs with
  | none => none
  | some r1 =>
    match tdCellAt (r1.dropWhile pyIsSpace) with
    | none => none
    | some (c1, r2) =>
      match tdCellAt (r2.dropWhile pyIsSpace) with
      | none => none
      | some (c2, r3) =>
        match tdCellAt (r3.dropWhile pyIsSpace) with
        | none => none
        | some (c3, r4) =>
          match litCI "</tr>" (r4.dropWhile pyIsSpace) with
          | none => none
          | some r5 => some ((String.mk c1, String.mk c2, String.mk c3), r5)

/-- `re.findall` loop for the table-row pattern. -/
def trFindAll : Nat → List Char → List (String × String × String)
  | 0, _ => []
  | _, [] => []
  | fuel + 1, c :: cs =>
    match trMatchAt (c :: cs) with
    | some (g, rest) => g :: trFindAll fuel rest
    | none => trFindAll fuel cs

/-- `MemberInfoNormalizer._extract_from_table_rows`
(`field_normalizers.py` 214-231). -/
def MemberInfoNormalizer.extract_from_table_rows (text : String) : List MemberInfo :=
  if pyContains (pyLower text) "<tr>" then
    (trFindAll text.data.length text.data).filterMap (fun g =>
      let name := pyStrip g.1
      let relationship := pyStrip g.2.1
      let birth_year := pyStrip g.2.2
      if name ≠ "" ∧ relationship ≠ "" then
        some { name := name
               relationship := MemberInfoNormalizer.normalize_relationship relationship
               birth_year := if birth_year ≠ "" ∧ birth_year.data.all pyIsDigit
                             then some birth_year else none }
      else none)
  else []

/-- `"([^"]+)"` of the JSON pattern (case-sensitive, deterministic). -/
def quotedGroup (cs : List Char) : Option (List Char × List Char) :=
  match cs with
  | '"' :: r1 =>
    let content := r1.takeWhile (fun c => ¬ (c = '"'))
    if content = [] then none
    else
      match r1.dropWhile (fun c => ¬ (c = '"')) with
      | '"' :: r2 => some (content, r2)
      | _ => none
  | _ => none

/-- Greedy `[^}]*` followed by a continuation: Python tries the longest
consumption first and backtracks one character at a time; `i` is the number of
characters of the non-`}` run still consumed. -/
def backtrackStar (k : List Char → Option ((String × String × String) × List Char)) :
    Nat → List Char → Option ((String × String × String) × List Char)
  | 0, cs => k cs
  | i + 1, cs =>
    match k (cs.drop (i + 1)) with
    | some r => some r
    | none => backtrackStar k i cs

/-- One attempt of the JSON pattern
`"name":\s*"([^"]+)"[^}]*"relation":\s*"([^"]+)"[^}]*"birth_year":\s*"([^"]+)"`. -/
def jsonMatchAt (cs : List Char) : Option ((String × String × String) × List Char) :=
  match litCS "\"name\":" cs with
  | none => none
  | some r1 =>
    match quotedGroup (r1.dropWhile pyIsSpace) with
    | none => none
    | some (nameTxt, r2) =>
      backtrackStar (fun r3 =>
        match litCS "\"relation\":" r3 with
        | none => none
        | some r4 =>
          match quotedGroup (r4.dropWhile pyIsSpace) with
          | none => none
          | some (relTxt, r5) =>
            backtrackStar (fun r6 =>
              match litCS "\"birth_year\":" r6 with
              | none => none
              | some r7 =>
                match quotedGroup (r7.dropWhile pyIsSpace) with
                | none => none
                | some (yearTxt, r8) =>
                  some ((String.mk nameTxt, String.mk relTxt, String.mk yearTxt), r8))
              (r5.takeWhile (fun c => ¬ (c = '}'))).length r5)
        (r2.takeWhile (fun c => ¬ (c = '}'))).length r2

/-- `re.findall` loop for the JSON pattern. -/
def jsonFindAll : Nat → List Char → List (String × String × String)
  | 0, _ => []
  | _, [] => []
  | fuel + 1, c :: cs =>
    match jsonMatchAt (c :: cs) with
    | some (g, rest) => g :: jsonFindAll fuel rest
    | none => jsonFindAll fuel cs

/-- `MemberInfoNormalizer._extract_from_json` (`field_normalizers.py` 233-249). -/
def MemberInfoNormalizer.extract_from_json (text : String) : List MemberInfo :=
  if pyContains text "\"name\"" ∧ pyContains text "\"relation" then
    (jsonFindAll text.data.length text.data).map (fun g =>
      { name := pyStrip g.1
        relationship := MemberInfoNormalizer.normalize_relationship g.2.1
        birth_year := if g.2.2 ≠ "" ∧ g.2.2.data.all pyIsDigit
                      then some (pyStrip g.2.2) else none })
  else []

/-- `str.split` on one separator character, keeping empty segments. -/
def pySplitChar (sep : Char) : List Char → List Char → List String
  | [], acc => [String.mk acc.reverse]
  | x :: rest, acc =>
    if x = sep then String.mk acc.reverse :: pySplitChar sep rest []
    else pySplitChar sep rest (x :: acc)

/-- `re.split(r'[,;\n\r]', …)`, keeping empty segments. -/
def pySplitAny (seps : List Char) : List Char → List Char → List String
  | [], acc => [String.mk acc.reverse]
  | x :: rest, acc =>
    if seps.contains x then String.mk acc.reverse :: pySplitAny seps rest []
    else pySplitAny seps rest (x :: acc)

/-- The relationship keywords of `_extract_from_delimited_text`. -/
def relationship_keywords : List String :=
  ["vợ", "chồng", "con", "cha", "mẹ", "anh", "chị", "em"]

/-- Lazy `.*?` up to a relationship alternative (`.` does not match `\n`);
returns the matched relationship text. -/
def lazyDotRel : Nat → List Char → Option (List Char)
  | 0, _ => none
  | fuel + 1, cs =>
    match matchRelAlt relAlternatives cs with
    | some (relTxt, _) => some relTxt
    | none =>
      match cs with
      | [] => none
      | x :: rest => if x = '\n' then none else lazyDotRel fuel rest

/-- Longest-first retry over the greedy name run of the delimited pattern
`([A-Z…][a-z…\s]+).*?(REL)`. -/
def relTryLens (run afterRun : List Char) : Nat → Option (List Char × List Char)
  | 0 => none
  | len + 1 =>
    if len + 1 < 2 then none
    else
      let tail := run.drop (len + 1) ++ afterRun
      match lazyDotRel (tail.length + 1) tail with
      | some relTxt => some (run.take (len + 1), relTxt)
      | none => relTryLens run afterRun len

/-- One attempt of the delimited pattern at the current position. -/
def relSearchAt (cs : List Char) : Option (List Char × List Char) :=
  match cs with
  | [] => none
  | c :: rest =>
    if pyIsLetter c then
      relTryLens (c :: rest.takeWhile isNameCont) (rest.dropWhile isNameCont)
        (c :: rest.takeWhile isNameCont).length
    else none

/-- `re.search` for the delimited pattern: leftmost starting position wins. -/
def relSearch : Nat → List Char → Option (List Char × List Char)
  | 0, _ => none
  | _, [] => none
  | fuel + 1, c :: cs =>
    match relSearchAt (c :: cs) with
    | some r => some r
    | none => relSearch fuel cs

/-- `MemberInfoNormalizer._extract_from_delimited_text`
(`field_normalizers.py` 301-346). -/
def MemberInfoNormalizer.extract_from_delimited_text (text : String) : List MemberInfo :=
  let segments :=
    if pyContains text "|" then pySplitChar '|' text.data []
    else pySplitAny [',', ';', '\n', '\r'] text.data []
  segments.filterMap (fun seg0 =>
    let seg := pyStrip seg0
    if seg = "" ∨ seg.length < 5 then none
    else if relationship_keywords.any (fun k => pyContains (pyLower seg) k) then
      match relSearch seg.data.length seg.data with
      | some (nameChars, relTxt) =>
        let name_part0 := pyStrip (String.mk nameChars)
        let name_part :=
          pyStrip (String.mk (name_part0.data.filter (fun c => ¬ (c = ':') ∧ ¬ (c = '-'))))
        if name_part ≠ "" then
          some { name := name_part
                 relationship :=
                   MemberInfoNormalizer.normalize_relationship (pyStrip (String.mk relTxt))
                 birth_year := yearSearch seg.data none }
        else none
      | none => none
    else none)

/-- The composite deduplication key of `_remove_duplicates`:
`f"{name.lower().strip()}_{relationship.lower().strip()}"`. -/
def memberKey (m : MemberInfo) : String :=
  pyStrip (pyLower m.name) ++ "_" ++ pyStrip (pyLower m.relationship)

/-- Loop of `MemberInfoNormalizer._remove_duplicates`
(`field_normalizers.py` 362-373); `seen` is the set of emitted keys. -/
def MemberInfoNormalizer.remove_duplicates_go : List MemberInfo → List String → List MemberInfo
  | [], _ => []
  | m :: rest, seen =>
    if ¬ seen.contains (memberKey m) ∧ m.name ≠ "" ∧ m.relationship ≠ "" then
      m :: MemberInfoNormalizer.remove_duplicates_go rest (memberKey m :: seen)
    else
      MemberInfoNormalizer.remove_duplicates_go rest seen

/-- `MemberInfoNormalizer._remove_duplicates`. -/
def MemberInfoNormalizer.remove_duplicates (members : List MemberInfo) : List MemberInfo :=
  MemberInfoNormalizer.remove_duplicates_go members []

/-- The four-stage cascade of `MemberInfoNormalizer.normalize`
(`field_normalizers.py` 196-205): `members.extend(stage)` guarded by
`if not members:` is exactly "first non-empty stage wins". -/
def memberCascade (text : String) : List MemberInfo :=
  if MemberInfoNormalizer.extract_from_table_rows text = [] then
    (if MemberInfoNormalizer.extract_from_json text = [] then
      (if MemberInfoNormalizer.extract_from_structured_text text = [] then
        MemberInfoNormalizer.extract_from_delimited_text text
      else MemberInfoNormalizer.extract_from_structured_text text)
    else MemberInfoNormalizer.extract_from_json text)
  else MemberInfoNormalizer.extract_from_table_rows text

/-- `MemberInfoNormalizer.normalize` (`field_normalizers.py` 190-212):
the cascade followed by deduplication. -/
def MemberInfoNormalizer.normalize (member_text : String) : List MemberInfo :=
  if member_text = "" then []
  else MemberInfoNormalizer.remove_duplicates (memberCascade member_text)

/-- Invariant of the deduplication loop: the emitted list has pairwise
distinct composite keys, every emitted member has a non-empty name and
relationship, and no emitted key was in `seen`. -/
theorem remove_duplicates_go_invariant (ms : List MemberInfo) (seen : List String) :
    ((MemberInfoNormalizer.remove_duplicates_go ms seen).Pairwise
      (fun a b => memberKey a ≠ memberKey b)) ∧
    (∀ x ∈ MemberInfoNormalizer.remove_duplicates_go ms seen,
      x.name ≠ "" ∧ x.relationship ≠ "" ∧ memberKey x ∉ seen) := by
  induction ms generalizing seen with
  | nil =>
    refine ⟨List.Pairwise.nil, ?_⟩
    intro x hx
    simp [MemberInfoNormalizer.remove_duplicates_go] at hx
  | cons m rest ih =>
    by_cases h : ¬ (seen.contains (memberKey m) = true) ∧ m.name ≠ "" ∧ m.relationship ≠ ""
    · have hgo : MemberInfoNormalizer.remove_duplicates_go (m :: rest) seen =
          m :: MemberInfoNormalizer.remove_duplicates_go rest (memberKey m :: seen) := by
        simp only [MemberInfoNormalizer.remove_duplicates_go]
        rw [if_pos h]
      obtain ⟨ihp, ihm⟩ := ih (memberKey m :: seen)
      rw [hgo]
      constructor
      · refine List.Pairwise.cons (fun b hb => ?_) ihp
        have hnb := (ihm b hb).2.2
        intro hEq
        exact hnb (by rw [← hEq]; exact List.mem_cons_self _ _)
      · intro x hx
        rcases List.mem_cons.mp hx with rfl | hx'
        · refine ⟨h.2.1, h.2.2, fun hmem => h.1 ?_⟩
          simpa [List.contains] using List.elem_eq_true_of_mem hmem
        · have hx2 := ihm x hx'
          exact ⟨hx2.1, hx2.2.1, fun hmem => hx2.2.2 (List.mem_cons_of_mem _ hmem)⟩
    · have hgo : MemberInfoNormalizer.remove_duplicates_go (m :: rest) seen =
          MemberInfoNormalizer.remove_duplicates_go rest seen := by
        simp only [MemberInfoNormalizer.remove_duplicates_go]
        rw [if_neg h]
      rw [hgo]
      obtain ⟨ihp, ihm⟩ := ih seen
      exact ⟨ihp, ihm⟩

/-- `MemberInfoNormalizer.normalize` always returns a deduplicated list. -/
theorem normalize_eq_remove_duplicates (text : String) :
    ∃ ms, MemberInfoNormalizer.normalize text = MemberInfoNormalizer.remove_duplicates ms := by
  unfold MemberInfoNormalizer.normalize
  by_cases h0 : text = ""
  · rw [if_pos h0]
    exact ⟨[], rfl⟩
  · rw [if_neg h0]
    exact ⟨_, rfl⟩

/-- C9: for every input the member-list normalizer returns no two entries that
agree on both name and relationship after lowercasing and trimming, and every
returned entry has a non-empty name and relationship. -/
theorem C9_memberlist_dedup (text : String) :
    ((MemberInfoNormalizer.normalize text).Pairwise
      (fun a b => ¬ (pyStrip (pyLower a.name) = pyStrip (pyLower b.name) ∧
        pyStrip (pyLower a.relationship) = pyStrip (pyLower b.relationship)))) ∧
    (∀ m ∈ MemberInfoNormalizer.normalize text, m.name ≠ "" ∧ m.relationship ≠ "") := by
  obtain ⟨ms, hms⟩ := normalize_eq_remove_duplicates text
  obtain ⟨hp, hm⟩ := remove_duplicates_go_invariant ms []
  rw [hms]
  constructor
  · refine hp.imp ?_
    intro a b hk hab
    exact hk (by unfold memberKey; rw [hab.1, hab.2])
  · intro m hmem
    exact ⟨(hm m hmem).1, (hm m hmem).2.1⟩

/-- C3 counterexample: on this input the pattern-(c) stage
(`"Name - Relationship - Year"`) yields a record, yet a record produced by
the later pattern-(d) stage (`"Relationship: Name (Year)"`) also appears in
the normalizer output — the three structured-text patterns are not an
early-exit cascade. -/
theorem C3_stage_counterexample :
    pattern1Records "Tuan - Con - 1999, Con: Binh (1985)" =
      [{ name := "Tuan", relationship := "Con", birth_year := some "1999" }] ∧
    pattern2Records "Tuan - Con - 1999, Con: Binh (1985)" =
      [{ name := "Bi", relationship := "Con", birth_year := none }] ∧
    MemberInfoNormalizer.normalize "Tuan - Con - 1999, Con: Binh (1985)" =
      [{ name := "Tuan", relationship := "Con", birth_year := some "1999" },
       { name := "Bi", relationship := "Con", birth_year := none }] ∧
    ({ name := "Bi", relationship := "Con", birth_year := none } : MemberInfo) ∉
      pattern1Records "Tuan - Con - 1999, Con: Binh (1985)" := by
  decide

/-- C3 amended: the cascade has four early-exit stages (table rows, JSON
triples, structured text, delimiter split), but within the structured-text
stage the three inline patterns all run and their records are concatenated:
when the first two stages yield nothing and the structured stage yields
anything, the output is the deduplication of the concatenation of all three
patterns' records. -/
theorem C3_structured_stage_amended (text : String)
    (hTable : MemberInfoNormalizer.extract_from_table_rows text = [])
    (hJson : MemberInfoNormalizer.extract_from_json text = [])
    (hStruct : MemberInfoNormalizer.extract_from_structured_text text ≠ []) :
    MemberInfoNormalizer.normalize text =
      MemberInfoNormalizer.remove_duplicates
        (pattern1Records text ++ pattern2Records text ++ pattern3Records text) := by
  have h0 : text ≠ "" := by
    intro h
    subst h
    exact hStruct (by decide)
  unfold MemberInfoNormalizer.normalize
  rw [if_neg h0]
  unfold memberCascade
  rw [if_pos hTable, if_pos hJson, if_neg hStruct]
  rfl

/-- Witness for the amended C3 at the counterexample input. -/
theorem C3_structured_stage_amended_witness :
    MemberInfoNormalizer.normalize "Tuan - Con - 1999, Con: Binh (1985)" =
      MemberInfoNormalizer.remove_duplicates
        (pattern1Records "Tuan - Con - 1999, Con: Binh (1985)" ++
         pattern2Records "Tuan - Con - 1999, Con: Binh (1985)" ++
         pattern3Records "Tuan - Con - 1999, Con: Binh (1985)") :=
  C3_structured_stage_amended "Tuan - Con - 1999, Con: Binh (1985)"
    (by decide) (by decide) (by decide)

/-! ## Bank and household-code normalizers (`field_normalizers.py`) -/

/-- `NormalizedBank` dataclass (`data_models.py`). -/
structure NormalizedBank where
  code : Option String
  full_name : Option String
  original : String
  match_type : String := "exact"
  confidence : ℚ := 1
deriving DecidableEq, Repr

/-- `banks` of `get_normalization_maps` (`patterns.py` 256-271), in dictionary
insertion order. -/
def banks_map : List (String × String) :=
  [("ACB", "Ngân hàng TMCP Á Châu (ACB)"),
   ("VCB", "Ngân hàng TMCP Ngoại thương Việt Nam (Vietcombank)"),
   ("TCB", "Ngân hàng TMCP Kỹ thương Việt Nam (Techcombank)"),
   ("CTG", "Ngân hàng TMCP Công thương Việt Nam (VietinBank)"),
   ("MBB", "Ngân hàng TMCP Quân đội (MB Bank)"),
   ("VTB", "Ngân hàng TMCP Việt Nam Thịnh vượng (VPBank)"),
   ("SHB", "Ngân hàng TMCP Sài Gòn - Hà Nội (SHB)"),
   ("EIB", "Ngân hàng TMCP Xuất Nhập khẩu Việt Nam (Eximbank)"),
   ("OCB", "Ngân hàng TMCP Phương Đông (OCB)"),
   ("TPB", "Ngân hàng TMCP Tiên Phong (TPBank)"),
   ("HDB", "Ngân hàng TMCP Phát triển nhà TPHCM (HDBank)"),
   ("BID", "Ngân hàng TMCP Đầu tư và Phát triển Việt Nam (BIDV)"),
   ("VIB", "Ngân hàng TMCP Quốc tế Việt Nam (VIB)"),
   ("SEA", "Ngân hàng TMCP Đông Nam Á (SeABank)")]

/-- Python `str.split()` (split on whitespace runs, dropping empties). -/
def pySplitWsGo : List Char → List Char → List String
  | [], acc => if acc = [] then [] else [String.mk acc.reverse]
  | c :: rest, acc =>
    if pyIsSpace c then
      (if acc = [] then pySplitWsGo rest []
       else String.mk acc.reverse :: pySplitWsGo rest [])
    else pySplitWsGo rest (c :: acc)

/-- Python `str.split()`. -/
def pySplitWs (s : String) : List String :=
  pySplitWsGo s.data []

/-- `BankNormalizer.normalize` (`field_normalizers.py` 112-161).  The
exception branch (`match_type="error"`) is unreachable in the total
embedding. -/
def BankNormalizer.normalize (bank : String) : Option NormalizedBank :=
  if bank = "" then none
  else
    let bank_upper := pyStrip (pyUpper bank)
    match banks_map.find? (fun p =>
        pyContains bank_upper p.1 ∨ pyContains (pyLower bank) (pyLower p.1)) with
    | some p =>
      some { code := some p.1, full_name := some p.2, original := bank,
             match_type := "exact", confidence := 1 }
    | none =>
      match banks_map.find? (fun p =>
          (pySplitWs p.1).any (fun w => pyContains bank_upper w)) with
      | some p =>
        some { code := some p.1, full_name := some p.2, original := bank,
               match_type := "partial", confidence := 8/10 }
      | none =>
        some { code := none, full_name := some (pyTitle bank), original := bank,
               match_type := "unknown", confidence := 5/10 }

/-- The household-code regex `^[A-Z0-9]{8,15}$` as a direct matcher. -/
def hhMatch (cs : List Char) : Bool :=
  8 ≤ cs.length ∧ cs.length ≤ 15 ∧
    cs.all (fun c => ('A' ≤ c ∧ c ≤ 'Z') ∨ pyIsDigit c)

/-- `HouseholdCodeNormalizer.normalize` (`field_normalizers.py` 164-184):
uppercase, remove whitespace (`re.sub(r'\s+', '')`), validate, else return the
original. -/
def HouseholdCodeNormalizer.normalize (code : String) : String :=
  if code = "" then ""
  else
    let normalized := String.mk ((pyUpper code).data.filter (fun c => ¬ pyIsSpace c))
    if hhMatch normalized.data then normalized else code

/-! ## Field values and Python `str()` / dataclass `repr`

The extracted value of a field is one of: `None`, a string (phone, household
code, or a raw pass-through), a `NormalizedIncome`, a `NormalizedBank`, or a
list of `MemberInfo`.  `pyStrOfValue` models Python `str()` on these values
(dataclass `repr` for the dataclasses; quote-escaping inside reprs is not
modelled — no claim depends on repr text). -/

inductive FieldValue
  | none
  | str (s : String)
  | income (v : NormalizedIncome)
  | bank (v : NormalizedBank)
  | members (ms : List MemberInfo)
deriving DecidableEq, Repr

/-- Python truthiness of an extracted value (`if result.extracted_value:`):
`None`, the empty string, and the empty list are falsy; dataclass instances
are always truthy. -/
def FieldValue.truthy : FieldValue → Bool
  | .none => false
  | .str s => s ≠ ""
  | .income _ => true
  | .bank _ => true
  | .members ms => ms ≠ []

/-- Python `repr` of a string (quote-escaping not modelled). -/
def pyReprStr (s : String) : String :=
  "\x27" ++ s ++ "\x27"

/-- Python `repr` of an optional string. -/
def pyReprOptStr : Option String → String
  | Option.none => "None"
  | Option.some s => pyReprStr s

/-- Python `repr` of a bool. -/
def pyReprBool : Bool → String
  | true => "True"
  | false => "False"

/-- Python `repr` of the float constants that occur as bank confidences
(1.0, 0.8, 0.5, 0.0); integral rationals print as `n.0`. -/
def pyFloatRepr (q : ℚ) : String :=
  if q.den = 1 then toString q.num ++ ".0"
  else if q = 8/10 then "0.8"
  else if q = 1/2 then "0.5"
  else toString q.num ++ "/" ++ toString q.den

/-- `repr` of a `MemberInfo` (the unreachable `additional_info` is `None`). -/
def pyReprMember (m : MemberInfo) : String :=
  "MemberInfo(name=" ++ pyReprStr m.name ++ ", relationship=" ++
    pyReprStr m.relationship ++ ", birth_year=" ++ pyReprOptStr m.birth_year ++
    ", additional_info=None)"

/-- `repr` of a `NormalizedIncome`. -/
def pyReprIncome (v : NormalizedIncome) : String :=
  "NormalizedIncome(amount=" ++ toString v.amount ++ ", currency=" ++
    pyReprStr v.currency ++ ", formatted=" ++ pyReprStr v.formatted ++
    ", original=" ++ pyReprStr v.original ++ ", parsing_successful=" ++
    pyReprBool v.parsing_successful ++ ", multiplier_applied=" ++
    pyReprOptStr v.multiplier_applied ++ ")"

/-- `repr` of a `NormalizedBank`. -/
def pyReprBank (v : NormalizedBank) : String :=
  "NormalizedBank(code=" ++ pyReprOptStr v.code ++ ", full_name=" ++
    pyReprOptStr v.full_name ++ ", original=" ++ pyReprStr v.original ++
    ", match_type=" ++ pyReprStr v.match_type ++ ", confidence=" ++
    pyFloatRepr v.confidence ++ ")"

/-- Python `str()` of an extracted value. -/
def pyStrOfValue : FieldValue → String
  | .none => "None"
  | .str s => s
  | .income v => pyReprIncome v
  | .bank v => pyReprBank v
  | .members ms => "[" ++ String.intercalate ", " (ms.map pyReprMember) ++ "]"

/-! ## Validators (`field_validators.py`) -/

/-- `ValidationResult` dataclass (`data_models.py`); the unused
`validation_timestamp` field is omitted (never read by the pipeline). -/
structure ValidationResult where
  is_valid : Bool
  errors : List String
  warnings : List String := []
deriving DecidableEq, Repr

/-- `phone_prefixes` of `get_normalization_maps` (`patterns.py` 272-278),
keys only (the validator only tests membership). -/
def phone_prefixes : List String :=
  ["032", "033", "034", "035", "036", "037", "038", "039",
   "070", "076", "077", "078", "079",
   "081", "082", "083", "084", "085", "088", "091", "094"]

/-- `PhoneValidator.validate` (`field_validators.py` 32-62). -/
def PhoneValidator.validate (phone : String) : ValidationResult :=
  if phone = "" then
    { is_valid := false, errors := ["Phone number is empty"], warnings := [] }
  else
    let errors :=
      (if ¬ vnPhoneMatch phone.data then ["Invalid Vietnam phone number format"] else []) ++
      (if phone.length < 9 ∨ phone.length > 11 then
        ["Phone number length should be between 9 and 11 digits"] else [])
    let warnings :=
      if 3 ≤ phone.length ∧ ¬ phone_prefixes.contains (String.mk (phone.data.take 3)) then
        ["Unknown phone prefix: " ++ String.mk (phone.data.take 3)]
      else []
    { is_valid := errors.length = 0, errors := errors, warnings := warnings }

/-- `IncomeValidator.validate` (`field_validators.py` 65-95); the
`if not income` branch is unreachable (a dataclass instance is truthy). -/
def IncomeValidator.validate (income : NormalizedIncome) : ValidationResult :=
  if ¬ income.parsing_successful then
    { is_valid := false, errors := ["Income parsing failed"], warnings := [] }
  else
    let errors :=
      if income.amount < 100000 then ["Income seems too low (< 100,000 VND)"]
      else if income.amount > 100000000 then ["Income seems too high (> 100,000,000 VND)"]
      else []
    let warnings :=
      if ¬ (100000 ≤ income.amount ∧ income.amount ≤ 100000000) then
        ["Income amount may be outside reasonable range"]
      else []
    { is_valid := errors.length = 0, errors := errors, warnings := warnings }

/-- `f"{q:.2f}"` for the bank confidences (exact hundredths suffice). -/
def pyFormat2f (q : ℚ) : String :=
  let n := (q * 100).floor.toNat
  toString (n / 100) ++ "." ++
    (if n % 100 < 10 then "0" ++ toString (n % 100) else toString (n % 100))

/-- `BankValidator.validate` (`field_validators.py` 98-122). -/
def BankValidator.validate (bank : NormalizedBank) : ValidationResult :=
  let errors := if bank.match_type = "error" then ["Error occurred during bank normalization"] else []
  let warnings :=
    (if bank.match_type = "unknown" then ["Bank not found in known banks list"] else []) ++
    (if bank.confidence < 1/2 then
      ["Low confidence in bank matching: " ++ pyFormat2f bank.confidence] else [])
  { is_valid := errors.length = 0, errors := errors, warnings := warnings }

/-- `HouseholdCodeValidator.validate` (`field_validators.py` 125-151). -/
def HouseholdCodeValidator.validate (code : String) : ValidationResult :=
  if code = "" then
    { is_valid := false, errors := ["Household code is empty"], warnings := [] }
  else
    let errors :=
      (if ¬ hhMatch code.data then
        ["Invalid household code format (should be 8-15 alphanumeric characters)"] else []) ++
      (if code.length < 8 then ["Household code too short (minimum 8 characters)"]
       else if code.length > 15 then ["Household code too long (maximum 15 characters)"]
       else [])
    { is_valid := errors.length = 0, errors := errors, warnings := [] }

/-- Python `int(str)`: optional surrounding whitespace, optional sign,
non-empty digits (underscores/other bases not modelled). -/
def pyParseInt (s : String) : Option Int :=
  let t := pyStripList s.data
  let (sign, t) := match t with
    | '-' :: r => ((-1 : Int), r)
    | '+' :: r => (1, r)
    | _ => (1, t)
  if t ≠ [] ∧ t.all pyIsDigit then some (sign * digitsToNat t) else none

/-- Per-member checks of `MemberInfoValidator.validate` (`field_validators.py`
168-194); `i` is the 1-based index used in the messages. -/
def memberChecks (i : Nat) (m : MemberInfo) (valid_rels : List String) :
    List String × List String :=
  let mp := "Member " ++ toString i
  let errors :=
    (if m.name = "" ∨ pyStrip m.name = "" then [mp ++ ": Missing name"] else []) ++
    (if m.relationship = "" ∨ pyStrip m.relationship = "" then
      [mp ++ ": Missing relationship"] else [])
  let warnings :=
    (if m.relationship ≠ "" ∧ ¬ valid_rels.contains m.relationship then
      [mp ++ ": Unknown relationship type \x27" ++ m.relationship ++ "\x27"] else []) ++
    (match m.birth_year with
     | Option.none => []
     | Option.some y =>
       if y = "" then []
       else
         match pyParseInt y with
         | Option.some year =>
           if year < 1900 ∨ year > 2025 then
             [mp ++ ": Birth year " ++ toString year ++ " seems unreasonable"]
           else []
         | Option.none => [mp ++ ": Invalid birth year format \x27" ++ y ++ "\x27"]) ++
    (if ¬ (m.name ≠ "" ∧ m.relationship ≠ "") then [mp ++ ": Incomplete information"] else [])
  (errors, warnings)

/-- `MemberInfoValidator.validate` (`field_validators.py` 154-200). -/
def MemberInfoValidator.validate (members : List MemberInfo) : ValidationResult :=
  if members = [] then
    { is_valid := false, errors := ["No member information found"], warnings := [] }
  else
    let valid_rels := relationships_map.map (fun p => p.2)
    let acc := members.enum.foldl
      (fun (acc : List String × List String) (p : Nat × MemberInfo) =>
        let r := memberChecks (p.1 + 1) p.2 valid_rels
        (acc.1 ++ r.1, acc.2 ++ r.2)) ([], [])
    { is_valid := acc.1.length = 0, errors := acc.1, warnings := acc.2 }

/-! ## Cross-validator (`CrossValidator`, `field_validators.py` 203-318)

The reference record (`input_data`) is a flat string-keyed map of string
values, modelled as an association list in insertion order. -/

/-- The reference-record type. -/
abbrev RefData : Type := List (String × String)

/-- `key in input_data` for the dict model. -/
def refHasKey (d : RefData) (k : String) : Bool :=
  (List.any d (fun p => p.1 = k))

/-- `input_data[key]` (first binding wins). -/
def refGet (d : RefData) (k : String) : String :=
  match List.find? (fun p => p.1 = k) d with
  | Option.some p => p.2
  | Option.none => ""

/-- Python `float(str)`: surrounding whitespace, optional sign,
`digits[.digits]` or `.digits` (exponent/`inf`/`nan` forms not modelled — the
pipeline only meets plain decimal strings). -/
def pyParseFloat (s : String) : Option ℚ :=
  let t := pyStripList s.data
  let (sign, t₀) := match t with
    | '-' :: r => ((-1 : ℚ), r)
    | '+' :: r => ((1 : ℚ), r)
    | _ => ((1 : ℚ), t)
  let intPart := t₀.takeWhile pyIsDigit
  let rest := t₀.dropWhile pyIsDigit
  match rest with
  | [] => if intPart = [] then Option.none else Option.some (sign * (digitsToNat intPart : ℚ))
  | '.' :: frac =>
    let fracD := frac.takeWhile pyIsDigit
    if frac.dropWhile pyIsDigit ≠ [] then Option.none
    else if intPart = [] ∧ fracD = [] then Option.none
    else Option.some (sign * ((digitsToNat intPart : ℚ) +
      (digitsToNat fracD : ℚ) / ((10 : ℚ) ^ fracD.length)))
  | _ => Option.none

/-- `f"{q:.1f}"` on a non-negative rational (round-half-even as in CPython
formatting of exact decimals; the pipeline only formats non-negative
percentages). -/
def pyFormat1f (q : ℚ) : String :=
  let x := q * 10
  let f := x.floor
  let n := if x - f > 1/2 then f + 1
           else if x - f < 1/2 then f
           else if f % 2 = 0 then f else f + 1
  toString (n / 10) ++ "." ++ toString ((n % 10).toNat)

/-- Outcome of one `_compare_*_values` call (`match`/`similarity`/`notes`). -/
structure CompareOutcome where
  matched : Bool
  similarity : ℚ
  notes : String
deriving DecidableEq, Repr

/-- `CrossValidator._compare_phone_values`. -/
def compare_phone_values (extracted : FieldValue) (input_val : String) : CompareOutcome :=
  let norm_extracted := PhoneNormalizer.normalize (pyStrOfValue extracted)
  let norm_input := PhoneNormalizer.normalize input_val
  { matched := norm_extracted = norm_input
    similarity := if norm_extracted = norm_input then 1 else 0
    notes := "Normalized: " ++ norm_extracted ++ " vs " ++ norm_input }

/-- `CrossValidator._compare_income_values`: `ValueError` on either `float()`
conversion yields the cannot-compare outcome. -/
def compare_income_values (extracted : FieldValue) (input_val : String) : CompareOutcome :=
  let extracted_amount : Option ℚ :=
    match extracted with
    | .income v => Option.some (v.amount : ℚ)
    | _ => pyParseFloat (String.mk ((pyStrOfValue extracted).data.filter (fun c => ¬ (c = ','))))
  let input_amount : Option ℚ :=
    pyParseFloat (String.mk (input_val.data.filter (fun c => ¬ (c = ','))))
  match input_amount, extracted_amount with
  | Option.some ia, Option.some ea =>
    let diff_percent := pyAbsQ (ea - ia) / pyMaxQ ia 1 * 100
    { matched := diff_percent < 10
      similarity := pyMaxQ 0 (1 - diff_percent / 100)
      notes := "Difference: " ++ pyFormat1f diff_percent ++ "%" }
  | _, _ => { matched := false, similarity := 0, notes := "Cannot compare as numbers" }

/-- `CrossValidator._compare_generic_values`. -/
def compare_generic_values (extracted : FieldValue) (input_val : String) : CompareOutcome :=
  let str_extracted := pyStrip (pyLower (pyStrOfValue extracted))
  let str_input := pyStrip (pyLower input_val)
  { matched := str_extracted = str_input
    similarity :=
      if str_extracted = str_input then 1
      else if pyContains str_input str_extracted ∨ pyContains str_extracted str_input then 7/10
      else 0
    notes := "String comparison: " ++ pyReprStr str_extracted ++ " vs " ++ pyReprStr str_input }

/-- `CrossValidator._compare_values` dispatch. -/
def compare_values (field_name : String) (extracted : FieldValue) (input_val : String) :
    CompareOutcome :=
  if field_name = "so_dien_thoai" then compare_phone_values extracted input_val
  else if field_name = "thu_nhap" then compare_income_values extracted input_val
  else compare_generic_values extracted input_val

/-- The `field_mappings` table of `validate_field_consistency`. -/
def field_mappings (field_name : String) : List String :=
  if field_name = "so_dien_thoai" then ["phone", "dien_thoai", "sdt"]
  else if field_name = "thu_nhap" then ["income", "salary", "luong", "thu_nhap"]
  else if field_name = "ngan_hang" then ["bank", "ngan_hang"]
  else if field_name = "ma_ho_gia_dinh" then ["household_code", "ma_ho", "hgd"]
  else if field_name = "thong_tin_thanh_vien" then ["members", "thanh_vien", "family"]
  else []

/-- The per-field cross-validation record (a Python dict with optional keys). -/
structure CrossFieldValidation where
  is_consistent : Bool
  input_key : Option String := Option.none
  input_value : Option String := Option.none
  extracted_value : Option FieldValue := Option.none
  similarity_score : Option ℚ := Option.none
  comparison_notes : Option String := Option.none
  note : Option String := Option.none
deriving DecidableEq, Repr

/-- `CrossValidator.validate_field_consistency` (`field_validators.py`
209-244): the first mapped key present in the reference record is compared;
absence of every key reports consistency with a note. -/
def validate_field_consistency (field_name : String) (extracted_value : FieldValue)
    (input_data : RefData) : CrossFieldValidation :=
  match (field_mappings field_name).find? (fun k => refHasKey input_data k) with
  | Option.some key =>
    let input_value := refGet input_data key
    let consistency := compare_values field_name extracted_value input_value
    { is_consistent := consistency.matched
      input_key := Option.some key
      input_value := Option.some input_value
      extracted_value := Option.some extracted_value
      similarity_score := Option.some consistency.similarity
      comparison_notes := Option.some consistency.notes
      note := Option.none }
  | Option.none =>
    { is_consistent := true
      input_key := Option.none
      note := Option.some "No corresponding input data found" }

/-! ## Extraction pipeline (`vss_enhanced_extractor_v2.py`)

The document is abstracted at the strategy boundary: for each field, each of
the five strategies of `base_extractor.py` either raises (`Except.error`) or
returns an optional candidate string — exactly the observable behaviour of
`extract_by_css_selectors` / `extract_by_regex` / `extract_by_context` /
`extract_by_xpath_simulation` / `extract_by_fallback` on the parsed document.
Timestamps (`datetime.now()`) are modelled by a `now : Nat` parameter supplied
per call. -/

/-- Per-field outcome of the five strategies on a given document. -/
structure FieldStrategyOutcomes where
  css : Except String (Option String)
  regex : Except String (Option String)
  context : Except String (Option String)
  xpath : Except String (Option String)
  fallback : Except String (Option String)

/-- `ExtractionResult` dataclass (`data_models.py` 18-44); `__post_init__`
stamps creation time, modelled by the `now` argument at construction. -/
structure ExtractionResult where
  field_name : String
  extracted_value : FieldValue
  confidence_score : ℚ
  quality_level : ExtractionQuality
  extraction_method : String
  fallback_used : Bool := false
  validation_errors : List String := []
  normalization_applied : List String := []
  extraction_timestamp : Nat
deriving DecidableEq, Repr

/-- `_create_failed_extraction_result` (`vss_enhanced_extractor_v2.py`
362-371). -/
def create_failed_extraction_result (field_name error_message : String) (now : Nat) :
    ExtractionResult :=
  { field_name := field_name
    extracted_value := .none
    confidence_score := 0
    quality_level := .failed
    extraction_method := "none"
    validation_errors := [error_message]
    extraction_timestamp := now }

/-- `_normalize_field_value` (`vss_enhanced_extractor_v2.py` 198-208) composed
with the `NormalizerFactory` dispatch: empty/`None` input short-circuits to
`None`; an unknown field falls to `BaseNormalizer.normalize`, whose
`NotImplementedError` is caught and the raw value returned. -/
def normalize_field_value (field_name : String) (value : String) : FieldValue :=
  if value = "" then .none
  else if field_name = "so_dien_thoai" then .str (PhoneNormalizer.normalize value)
  else if field_name = "thu_nhap" then
    (match IncomeNormalizer.normalize value with
     | Option.some v => .income v
     | Option.none => .none)
  else if field_name = "ngan_hang" then
    (match BankNormalizer.normalize value with
     | Option.some v => .bank v
     | Option.none => .none)
  else if field_name = "ma_ho_gia_dinh" then .str (HouseholdCodeNormalizer.normalize value)
  else if field_name = "thong_tin_thanh_vien" then .members (MemberInfoNormalizer.normalize value)
  else .str value

/-- Dispatch of `ValidatorFactory` + `validator.validate(value)` on the value
shapes the pipeline produces.  A `FieldValue.none` argument hits each
validator's `if not value:` branch.  Shape mismatches and unknown fields
cannot occur for the five registry fields; they are modelled by the
`Validation error` result of the source's exception handler (`str(e)` of a
bare `NotImplementedError` is empty). -/
def dispatch_validator (field_name : String) (value : FieldValue) : ValidationResult :=
  if field_name = "so_dien_thoai" then
    match value with
    | .str s => PhoneValidator.validate s
    | .none => PhoneValidator.validate ""
    | _ => { is_valid := false, errors := ["Validation error: "], warnings := [] }
  else if field_name = "thu_nhap" then
    match value with
    | .income v => IncomeValidator.validate v
    | .none => { is_valid := false, errors := ["Income data is empty"], warnings := [] }
    | _ => { is_valid := false, errors := ["Validation error: "], warnings := [] }
  else if field_name = "ngan_hang" then
    match value with
    | .bank v => BankValidator.validate v
    | .none => { is_valid := false, errors := ["Bank data is empty"], warnings := [] }
    | _ => { is_valid := false, errors := ["Validation error: "], warnings := [] }
  else if field_name = "ma_ho_gia_dinh" then
    match value with
    | .str s => HouseholdCodeValidator.validate s
    | .none => HouseholdCodeValidator.validate ""
    | _ => { is_valid := false, errors := ["Validation error: "], warnings := [] }
  else if field_name = "thong_tin_thanh_vien" then
    match value with
    | .members ms => MemberInfoValidator.validate ms
    | .none => MemberInfoValidator.validate []
    | _ => { is_valid := false, errors := ["Validation error: "], warnings := [] }
  else { is_valid := false, errors := ["Validation error: "], warnings := [] }

/-- Python truthiness of the optional reference record (`if input_data:`);
an empty dict is falsy. -/
def refTruthy : Option RefData → Bool
  | Option.some d => decide (¬ (d = []))
  | Option.none => false

/-- `_validate_field_value` (`vss_enhanced_extractor_v2.py` 210-231): the
field validator, plus an appended error when cross-validation against a
truthy reference record reports inconsistency. -/
def validate_field_value (field_name : String) (value : FieldValue)
    (input_data : Option RefData) : ValidationResult :=
  let validation_result := dispatch_validator field_name value
  if refTruthy input_data then
    let cross_validation :=
      validate_field_consistency field_name value (input_data.getD [])
    if ¬ cross_validation.is_consistent then
      { validation_result with
          errors := validation_result.errors ++
            ["Cross-validation failed: " ++
              cross_validation.comparison_notes.getD "Unknown issue"] }
    else validation_result
  else validation_result

/-- `get_normalization_applied` (`base_extractor.py` 254-283). -/
def get_normalization_applied (field_name : String) (original : String)
    (normalized : FieldValue) : List String :=
  if original = "" then []
  else if ¬ (original = pyStrOfValue normalized) then
    ["value_changed"] ++
    (if field_name = "so_dien_thoai" then
      (if pyContains original "+84" ∨ pyContains original "84" then
        ["international_prefix_converted"] else []) ++
      (if ['-', '(', ')', ' '].any (fun c => original.data.contains c) then
        ["formatting_removed"] else [])
     else if field_name = "thu_nhap" then
      ["currency_parsed"] ++
      (if pyContains (pyLower original) "triệu" then ["million_multiplier_applied"] else [])
     else if field_name = "ngan_hang" then ["bank_name_standardized"]
     else if field_name = "ma_ho_gia_dinh" then
      ["uppercase_conversion"] ++ (if pyContains original " " then ["spaces_removed"] else [])
     else [])
  else []

/-- Candidate collection of `_extract_single_field` (`vss_enhanced_extractor_v2.py`
114-139): strategies 1-4 run in order with collection confidences 0.9 / 0.8 /
0.7 / 0.8; the fallback runs only when they produced nothing, with 0.5.  An
exception in any executed strategy aborts the collection. -/
def collectAttempts (o : FieldStrategyOutcomes) :
    Except String (List (String × String × ℚ)) := do
  let css ← o.css
  let a1 : List (String × String × ℚ) :=
    match css with
    | Option.some v => [("css_selector", v, (9/10 : ℚ))]
    | Option.none => []
  let regex ← o.regex
  let a2 := a1 ++ (match regex with
    | Option.some v => [("regex_pattern", v, (8/10 : ℚ))]
    | Option.none => [])
  let context ← o.context
  let a3 := a2 ++ (match context with
    | Option.some v => [("context_search", v, (7/10 : ℚ))]
    | Option.none => [])
  let xpath ← o.xpath
  let a4 := a3 ++ (match xpath with
    | Option.some v => [("xpath_simulation", v, (8/10 : ℚ))]
    | Option.none => [])
  if a4 = [] then
    let fb ← o.fallback
    return (match fb with
      | Option.some v => [("fallback_pattern", v, (5/10 : ℚ))]
      | Option.none => [])
  else return a4

/-- Python `max(..., key=lambda x: x[2])`: first maximum wins; the empty case
is unreachable (the caller guards non-emptiness). -/
def maxByThird : List (String × String × ℚ) → String × String × ℚ
  | [] => ("none", "", 0)
  | a :: rest => rest.foldl (fun best x => if best.2.2 < x.2.2 then x else best) a

/-- `_select_best_extraction_result` (`vss_enhanced_extractor_v2.py` 176-196):
for the member-list field, attempts whose normalization yields data get a
+0.2 bonus and are preferred; otherwise plain maximum base confidence. -/
def select_best_extraction_result (field_name : String)
    (extraction_attempts : List (String × String × ℚ)) : String × String × ℚ :=
  if field_name = "thong_tin_thanh_vien" then
    let valid_attempts := extraction_attempts.filterMap (fun a =>
      let test_normalized := normalize_field_value field_name a.2.1
      if test_normalized.truthy then
        Option.some (a.1, a.2.1, a.2.2 + data_quality_bonus)
      else Option.none)
    if ¬ (valid_attempts = []) then maxByThird valid_attempts
    else maxByThird extraction_attempts
  else maxByThird extraction_attempts

/-- The `try` body of `_extract_single_field` (`vss_enhanced_extractor_v2.py`
114-170). -/
def extract_single_field_attempt (field_name : String) (o : FieldStrategyOutcomes)
    (input_data : Option RefData) (now : Nat) : Except String ExtractionResult :=
  match collectAttempts o with
  | .error e => .error e
  | .ok extraction_attempts =>
    if extraction_attempts = [] then
      .ok (create_failed_extraction_result field_name "No extraction pattern matched" now)
    else
      let best := select_best_extraction_result field_name extraction_attempts
      let normalized_value := normalize_field_value field_name best.2.1
      let validation_result := validate_field_value field_name normalized_value input_data
      let final_confidence :=
        calculate_confidence_score best.2.2 validation_result.errors best.1
      .ok { field_name := field_name
            extracted_value := normalized_value
            confidence_score := final_confidence
            quality_level := determine_quality_level final_confidence
            extraction_method := best.1
            fallback_used := pyContains best.1 "fallback"
            validation_errors := validation_result.errors
            normalization_applied :=
              get_normalization_applied field_name best.2.1 normalized_value
            extraction_timestamp := now }

/-- `_extract_single_field` with its exception boundary
(`vss_enhanced_extractor_v2.py` 172-174). -/
def extract_single_field (field_name : String) (o : FieldStrategyOutcomes)
    (input_data : Option RefData) (now : Nat) : ExtractionResult :=
  match extract_single_field_attempt field_name o input_data now with
  | .ok r => r
  | .error e => create_failed_extraction_result field_name ("Extraction error: " ++ e) now

/-- The field iteration order: insertion order of
`FieldPatternsConfig.get_optimized_patterns()` (`patterns.py`). -/
def FIELD_ORDER : List String :=
  ["so_dien_thoai", "thu_nhap", "ngan_hang", "ma_ho_gia_dinh", "thong_tin_thanh_vien"]

/-- `QualityMetrics` dataclass (`data_models.py`). -/
structure QualityMetrics where
  confidence_score : ℚ
  quality_level : String
  extraction_method : String
  fallback_used : Bool
  validation_error_count : Nat
  normalization_steps : Nat
  data_completeness : ℚ
  overall_score : ℚ
deriving DecidableEq, Repr

/-- `_calculate_overall_score` (`vss_enhanced_extractor_v2.py` 256-269). -/
def calculate_overall_score (result : ExtractionResult) : ℚ :=
  result.confidence_score * (4/10) +
  (if result.extracted_value.truthy then 1 else 0) * (3/10) +
  pyMaxQ 0 (1 - (result.validation_errors.length : ℚ) * (2/10)) * (2/10) +
  (if ¬ result.fallback_used then (8/10 : ℚ) else 4/10) * (1/10)

/-- `_calculate_quality_metrics` (`vss_enhanced_extractor_v2.py` 233-254). -/
def calculate_quality_metrics (result : ExtractionResult) : QualityMetrics :=
  { confidence_score := result.confidence_score
    quality_level := result.quality_level.value
    extraction_method := result.extraction_method
    fallback_used := result.fallback_used
    validation_error_count := result.validation_errors.length
    normalization_steps := result.normalization_applied.length
    data_completeness := if result.extracted_value.truthy then 1 else 0
    overall_score := calculate_overall_score result }

/-- `ExtractionSummary` dataclass (`data_models.py`). -/
structure ExtractionSummary where
  total_fields : Nat
  successful_extractions : Nat
  failed_extractions : Nat
  success_rate : ℚ
  high_quality_count : Nat
  moderate_quality_count : Nat
  overall_quality_score : ℚ
  status : String
  summary_timestamp : Nat
deriving DecidableEq, Repr

/-- One iteration of the counting loop of `_generate_extraction_summary`
(`vss_enhanced_extractor_v2.py` 319-328) over the accumulator
(successful, failed, moderate, high). -/
def summaryStep (acc : Nat × Nat × Nat × Nat) (p : String × ExtractionResult) :
    Nat × Nat × Nat × Nat :=
  if p.2.extracted_value.truthy then
    if p.2.quality_level = .excellent ∨ p.2.quality_level = .good then
      (acc.1 + 1, acc.2.1, acc.2.2.1, acc.2.2.2 + 1)
    else if p.2.quality_level = .moderate then
      (acc.1 + 1, acc.2.1, acc.2.2.1 + 1, acc.2.2.2)
    else
      (acc.1 + 1, acc.2.1, acc.2.2.1, acc.2.2.2)
  else
    (acc.1, acc.2.1 + 1, acc.2.2.1, acc.2.2.2)

/-- The counting loop of `_generate_extraction_summary`. -/
def summaryCounts (extracted_fields : List (String × ExtractionResult)) :
    Nat × Nat × Nat × Nat :=
  extracted_fields.foldl summaryStep (0, 0, 0, 0)

/-- `_generate_extraction_summary` (`vss_enhanced_extractor_v2.py` 310-352). -/
def generate_extraction_summary (extracted_fields : List (String × ExtractionResult))
    (now : Nat) : ExtractionSummary :=
  let total_fields := extracted_fields.length
  let c := summaryCounts extracted_fields
  let successful_extractions := c.1
  let failed_extractions := c.2.1
  let moderate_quality := c.2.2.1
  let high_quality := c.2.2.2
  let success_rate :=
    if total_fields > 0 then (successful_extractions : ℚ) / (total_fields : ℚ) else 0
  let quality_score :=
    if total_fields > 0 then
      ((high_quality : ℚ) * 1 + (moderate_quality : ℚ) * (5/10)) / (total_fields : ℚ)
    else 0
  let status :=
    if quality_score > 8/10 then "excellent"
    else if quality_score > 6/10 then "good"
    else if quality_score > 3/10 then "moderate"
    else "poor"
  { total_fields := total_fields
    successful_extractions := successful_extractions
    failed_extractions := failed_extractions
    success_rate := success_rate
    high_quality_count := high_quality
    moderate_quality_count := moderate_quality
    overall_quality_score := quality_score
    status := status
    summary_timestamp := now }

/-- `CrossValidationResult` dataclass (`data_models.py`). -/
structure CrossValidationResult where
  input_data_keys : List String
  extracted_fields_keys : List String
  field_validations : List (String × CrossFieldValidation)
  overall_consistency : ℚ
  inconsistencies : List String
  validation_timestamp : Nat
deriving DecidableEq, Repr

/-- `_perform_cross_validation` (`vss_enhanced_extractor_v2.py` 271-308):
only truthy extracted values are compared; the loop accumulates
(validations, inconsistency messages, consistent count, compared count). -/
def perform_cross_validation (extracted_fields : List (String × ExtractionResult))
    (input_data : RefData) (now : Nat) : CrossValidationResult :=
  let acc := extracted_fields.foldl
    (fun (acc : List (String × CrossFieldValidation) × List String × Nat × Nat) p =>
      if p.2.extracted_value.truthy then
        let field_validation :=
          validate_field_consistency p.1 p.2.extracted_value input_data
        (acc.1 ++ [(p.1, field_validation)],
         (if field_validation.is_consistent then acc.2.1
          else acc.2.1 ++
            [p.1 ++ ": " ++ field_validation.comparison_notes.getD "Inconsistent"]),
         (if field_validation.is_consistent then acc.2.2.1 + 1 else acc.2.2.1),
         acc.2.2.2 + 1)
      else acc)
    ([], [], 0, 0)
  { input_data_keys := input_data.map (fun p => p.1)
    extracted_fields_keys := extracted_fields.map (fun p => p.1)
    field_validations := acc.1
    overall_consistency :=
      if acc.2.2.2 > 0 then (acc.2.2.1 : ℚ) / (acc.2.2.2 : ℚ) else 0
    inconsistencies := acc.2.1
    validation_timestamp := now }

/-- The result container of `extract_enhanced_fields`
(`_initialize_results_container`, `vss_enhanced_extractor_v2.py` 92-105).
The `html_analysis` diagnostics and the constant `extraction_engine` string
lie outside the strategy-outcome abstraction and are omitted; an absent
cross-validation section (`{}`) is `Option.none`. -/
structure ExtractOutput where
  extraction_timestamp : Nat
  input_data_provided : Bool
  extracted_fields : List (String × ExtractionResult)
  quality_metrics : List (String × QualityMetrics)
  cross_validation : Option CrossValidationResult
  extraction_summary : ExtractionSummary
deriving DecidableEq, Repr

/-- `extract_enhanced_fields` (`vss_enhanced_extractor_v2.py` 46-90): one
`ExtractionResult` per registry field, quality metrics per field,
cross-validation when a truthy reference record is supplied, and the summary.
The document is the per-field strategy-outcome function `doc`. -/
def extract_enhanced_fields (doc : String → FieldStrategyOutcomes)
    (input_data : Option RefData) (now : Nat) : ExtractOutput :=
  let extracted_fields :=
    FIELD_ORDER.map (fun f => (f, extract_single_field f (doc f) input_data now))
  { extraction_timestamp := now
    input_data_provided := decide (¬ (input_data = Option.none))
    extracted_fields := extracted_fields
    quality_metrics := extracted_fields.map (fun p => (p.1, calculate_quality_metrics p.2))
    cross_validation :=
      if refTruthy input_data then
        Option.some (perform_cross_validation extracted_fields (input_data.getD []) now)
      else Option.none
    extraction_summary := generate_extraction_summary extracted_fields now }

/-- Unfolding of `_extract_single_field` when candidate collection succeeded
with a non-empty attempt list. -/
theorem extract_single_field_spec (field_name : String) (o : FieldStrategyOutcomes)
    (input_data : Option RefData) (now : Nat)
    (attempts : List (String × String × ℚ))
    (hA : collectAttempts o = .ok attempts) (hne : ¬ (attempts = [])) :
    extract_single_field field_name o input_data now =
      { field_name := field_name
        extracted_value :=
          normalize_field_value field_name (select_best_extraction_result field_name attempts).2.1
        confidence_score :=
          calculate_confidence_score (select_best_extraction_result field_name attempts).2.2
            (validate_field_value field_name
              (normalize_field_value field_name
                (select_best_extraction_result field_name attempts).2.1) input_data).errors
            (select_best_extraction_result field_name attempts).1
        quality_level :=
          determine_quality_level
            (calculate_confidence_score (select_best_extraction_result field_name attempts).2.2
              (validate_field_value field_name
                (normalize_field_value field_name
                  (select_best_extraction_result field_name attempts).2.1) input_data).errors
              (select_best_extraction_result field_name attempts).1)
        extraction_method := (select_best_extraction_result field_name attempts).1
        fallback_used := pyContains (select_best_extraction_result field_name attempts).1 "fallback"
        validation_errors :=
          (validate_field_value field_name
            (normalize_field_value field_name
              (select_best_extraction_result field_name attempts).2.1) input_data).errors
        normalization_applied :=
          get_normalization_applied field_name
            (select_best_extraction_result field_name attempts).2.1
            (normalize_field_value field_name
              (select_best_extraction_result field_name attempts).2.1)
        extraction_timestamp := now } := by
  unfold extract_single_field extract_single_field_attempt
  rw [hA]
  simp only [if_neg hne]

/-- Association-list lookup over a key-indexed map built from a key list. -/
theorem lookup_map_self {β : Type} (l : List String) (F : String → β) (f : String)
    (hf : f ∈ l) : (l.map (fun x => (x, F x))).lookup f = some (F f) := by
  induction l with
  | nil => cases hf
  | cons x rest ih =>
    by_cases hfx : f = x
    · subst hfx
      simp [List.lookup]
    · rcases List.mem_cons.mp hf with rfl | hf'
      · exact absurd rfl hfx
      · simp only [List.map_cons, List.lookup]
        rw [show (f == x) = false from beq_eq_false_iff_ne.mpr hfx]
        exact ih hf'

/-- A suffix is always a substring. -/
theorem listContainsSub_suffix (xs ys : List Char) : listContainsSub (xs ++ ys) ys = true := by
  induction xs with
  | nil =>
    cases ys with
    | nil => rfl
    | cons y t =>
      show ((y :: t).isPrefixOf (y :: t) || listContainsSub t (y :: t)) = true
      rw [Bool.or_eq_true]
      exact Or.inl (List.isPrefixOf_iff_prefix.mpr (List.prefix_refl _))
  | cons x xs ih =>
    show (ys.isPrefixOf (x :: (xs ++ ys)) || listContainsSub (xs ++ ys) ys) = true
    rw [Bool.or_eq_true]
    exact Or.inr ih

/-- A document on which only the structural-selector strategy finds a phone
candidate, with no validation errors downstream. -/
def phoneCssOnly : FieldStrategyOutcomes :=
  { css := .ok (Option.some "0912345678"), regex := .ok Option.none,
    context := .ok Option.none, xpath := .ok Option.none, fallback := .ok Option.none }

/-- C1 counterexample: a field won by the selector strategy with zero
validation errors gets confidence 0.9, not the claimed base weight 1.0 with
final confidence clamp(1.0 − 0.1·0) = 1: the collection-time base is 0.9 and a
method-weight multiplier also enters. -/
theorem C1_scoring_counterexample :
    (extract_single_field "so_dien_thoai" phoneCssOnly Option.none 0).validation_errors = [] ∧
    (extract_single_field "so_dien_thoai" phoneCssOnly Option.none 0).extraction_method =
      "css_selector" ∧
    (extract_single_field "so_dien_thoai" phoneCssOnly Option.none 0).confidence_score = 9/10 ∧
    pyMaxQ 0 (pyMinQ 1 (1 - ((0 : Nat) : ℚ) * validation_error_penalty)) = 1 ∧
    (9/10 : ℚ) ≠ 1 := by
  refine ⟨by decide, by decide, ?_, ?_, by norm_num⟩
  · have h : (extract_single_field "so_dien_thoai" phoneCssOnly Option.none 0).confidence_score =
        calculate_confidence_score (9/10) [] "css_selector" := rfl
    rw [h]
    norm_num [calculate_confidence_score, METHOD_WEIGHTS, pyMinQ, pyMaxQ,
      validation_error_penalty]
  · norm_num [pyMinQ, pyMaxQ, validation_error_penalty]

/-- C1 amended: whenever at least one strategy produced a candidate, the
winning candidate carries the collection-time base confidence
(selector 0.9, regex 0.8, context 0.7, path-traversal 0.8, fallback 0.5, plus
a possible 0.2 data-presence bonus for the member-list field), and the final
confidence is clamp((base − 0.1 × validationErrorCount) × methodWeight, 0, 1)
with methodWeight selector=1.0, regex=0.9, path=0.9, context=0.8,
fallback=0.5 — an additional multiplicative factor beyond the claim. -/
theorem C1_scoring_amended (field_name : String) (o : FieldStrategyOutcomes)
    (input_data : Option RefData) (now : Nat)
    (attempts : List (String × String × ℚ))
    (hA : collectAttempts o = .ok attempts) (hne : ¬ (attempts = [])) :
    (extract_single_field field_name o input_data now).extraction_method =
      (select_best_extraction_result field_name attempts).1 ∧
    (extract_single_field field_name o input_data now).confidence_score =
      pyMaxQ 0 (pyMinQ 1
        (((select_best_extraction_result field_name attempts).2.2 -
            ((extract_single_field field_name o input_data now).validation_errors.length : ℚ) *
              validation_error_penalty) *
          METHOD_WEIGHTS (select_best_extraction_result field_name attempts).1)) := by
  rw [extract_single_field_spec field_name o input_data now attempts hA hne]
  exact ⟨rfl, rfl⟩

/-- Witness for the amended C1 at the selector-only phone document. -/
theorem C1_scoring_amended_witness :
    (extract_single_field "so_dien_thoai" phoneCssOnly Option.none 0).extraction_method =
      (select_best_extraction_result "so_dien_thoai"
        [("css_selector", "0912345678", 9/10)]).1 ∧
    (extract_single_field "so_dien_thoai" phoneCssOnly Option.none 0).confidence_score =
      pyMaxQ 0 (pyMinQ 1
        (((select_best_extraction_result "so_dien_thoai"
              [("css_selector", "0912345678", 9/10)]).2.2 -
            ((extract_single_field "so_dien_thoai" phoneCssOnly Option.none
                0).validation_errors.length : ℚ) * validation_error_penalty) *
          METHOD_WEIGHTS (select_best_extraction_result "so_dien_thoai"
            [("css_selector", "0912345678", 9/10)]).1)) :=
  C1_scoring_amended "so_dien_thoai" phoneCssOnly Option.none 0
    [("css_selector", "0912345678", 9/10)] rfl (by decide)

/-- C2: an exception raised while extracting one field is caught at that
field's boundary and converted into a failed result (null value, confidence 0,
quality failed) whose validation errors contain the exception message, and
every registry field — the failing one included — is still present in the
returned map with its own extraction result. -/
theorem C2_exception_isolation (doc : String → FieldStrategyOutcomes)
    (input_data : Option RefData) (now : Nat) (f e : String)
    (hf : f ∈ FIELD_ORDER)
    (he : extract_single_field_attempt f (doc f) input_data now = .error e) :
    ((extract_enhanced_fields doc input_data now).extracted_fields.lookup f =
      some (create_failed_extraction_result f ("Extraction error: " ++ e) now)) ∧
    (create_failed_extraction_result f ("Extraction error: " ++ e) now).extracted_value =
      FieldValue.none ∧
    (create_failed_extraction_result f ("Extraction error: " ++ e) now).confidence_score = 0 ∧
    (create_failed_extraction_result f ("Extraction error: " ++ e) now).quality_level =
      ExtractionQuality.failed ∧
    (create_failed_extraction_result f ("Extraction error: " ++ e) now).validation_errors =
      ["Extraction error: " ++ e] ∧
    pyContains ("Extraction error: " ++ e) e = true ∧
    (∀ g, g ∈ FIELD_ORDER →
      (extract_enhanced_fields doc input_data now).extracted_fields.lookup g =
        some (extract_single_field g (doc g) input_data now)) := by
  have hesf : extract_single_field f (doc f) input_data now =
      create_failed_extraction_result f ("Extraction error: " ++ e) now := by
    unfold extract_single_field
    rw [he]
  have hall : ∀ g, g ∈ FIELD_ORDER →
      (extract_enhanced_fields doc input_data now).extracted_fields.lookup g =
        some (extract_single_field g (doc g) input_data now) := by
    intro g hg
    have hfields : (extract_enhanced_fields doc input_data now).extracted_fields =
        FIELD_ORDER.map (fun x => (x, extract_single_field x (doc x) input_data now)) := rfl
    rw [hfields]
    exact lookup_map_self FIELD_ORDER _ g hg
  refine ⟨?_, rfl, rfl, rfl, rfl, ?_, hall⟩
  · rw [hall f hf, hesf]
  · have h := listContainsSub_suffix ("Extraction error: ").data e.data
    unfold pyContains
    rw [String.data_append]
    exact h

/-- A document whose phone-field selector strategy raises `"boom"`. -/
def phoneCssBoomDoc : String → FieldStrategyOutcomes := fun f =>
  if f = "so_dien_thoai" then
    { css := .error "boom", regex := .ok Option.none, context := .ok Option.none,
      xpath := .ok Option.none, fallback := .ok Option.none }
  else
    { css := .ok Option.none, regex := .ok Option.none, context := .ok Option.none,
      xpath := .ok Option.none, fallback := .ok Option.none }

/-- Witness for C2: the phone selector raises `"boom"`; the field map still
holds all five fields and the phone entry is the converted failure. -/
theorem C2_exception_isolation_witness :
    ((extract_enhanced_fields phoneCssBoomDoc Option.none 0).extracted_fields.lookup
        "so_dien_thoai" =
      some (create_failed_extraction_result "so_dien_thoai"
        ("Extraction error: " ++ "boom") 0)) ∧
    (∀ g, g ∈ FIELD_ORDER →
      (extract_enhanced_fields phoneCssBoomDoc Option.none 0).extracted_fields.lookup g =
        some (extract_single_field g (phoneCssBoomDoc g) Option.none 0)) :=
  ⟨(C2_exception_isolation phoneCssBoomDoc Option.none 0 "so_dien_thoai" "boom"
      (by decide) rfl).1,
   (C2_exception_isolation phoneCssBoomDoc Option.none 0 "so_dien_thoai" "boom"
      (by decide) rfl).2.2.2.2.2.2⟩

/-- A document on which every strategy returns nothing. -/
def allNoneOutcomes : FieldStrategyOutcomes :=
  { css := .ok Option.none, regex := .ok Option.none, context := .ok Option.none,
    xpath := .ok Option.none, fallback := .ok Option.none }

/-- C6 amended: when none of the five strategies produces a candidate, the
field's result has null value, confidence 0, quality failed and exactly one
validation error — whose text is `"No extraction pattern matched"`
(capitalized), not the claimed all-lowercase message. -/
theorem C6_no_candidate_failed (field_name : String) (input_data : Option RefData) (now : Nat) :
    extract_single_field field_name allNoneOutcomes input_data now =
      { field_name := field_name
        extracted_value := FieldValue.none
        confidence_score := 0
        quality_level := ExtractionQuality.failed
        extraction_method := "none"
        fallback_used := false
        validation_errors := ["No extraction pattern matched"]
        normalization_applied := []
        extraction_timestamp := now } := rfl

/-- C6 counterexample: the recorded validation error is
`"No extraction pattern matched"`, not `"no extraction pattern matched"`. -/
theorem C6_message_counterexample :
    (extract_single_field "so_dien_thoai" allNoneOutcomes Option.none 0).validation_errors =
      ["No extraction pattern matched"] ∧
    ¬ ((extract_single_field "so_dien_thoai" allNoneOutcomes Option.none 0).validation_errors =
      ["no extraction pattern matched"]) := by
  refine ⟨rfl, ?_⟩
  intro h
  rw [show (extract_single_field "so_dien_thoai" allNoneOutcomes Option.none 0).validation_errors
      = ["No extraction pattern matched"] from rfl] at h
  simp at h

/-- Forget the creation timestamp of a result (for timestamp-modulo
comparison). -/
def ExtractionResult.eraseTimestamp (r : ExtractionResult) : ExtractionResult :=
  { r with extraction_timestamp := 0 }

/-- A single field's extraction result depends on the call time only through
the stored timestamp. -/
theorem esf_timestamp_independent (field_name : String) (o : FieldStrategyOutcomes)
    (input_data : Option RefData) (t1 t2 : Nat) :
    (extract_single_field field_name o input_data t1).eraseTimestamp =
      (extract_single_field field_name o input_data t2).eraseTimestamp := by
  unfold extract_single_field extract_single_field_attempt
  cases hA : collectAttempts o with
  | error e => rfl
  | ok attempts =>
    by_cases hne : attempts = []
    · simp only [if_pos hne]
      rfl
    · simp only [if_neg hne]
      rfl

/-- C8 counterexample: two calls on the identical document and reference
record made at different clock times yield per-field `ExtractionResult`s that
differ in the `extraction_timestamp` component, so the results are not
byte-identical in every component. -/
theorem C8_idempotence_counterexample :
    ((extract_enhanced_fields (fun _ => allNoneOutcomes) Option.none 0).extracted_fields.lookup
        "so_dien_thoai" =
      some (create_failed_extraction_result "so_dien_thoai" "No extraction pattern matched" 0)) ∧
    ((extract_enhanced_fields (fun _ => allNoneOutcomes) Option.none 1).extracted_fields.lookup
        "so_dien_thoai" =
      some (create_failed_extraction_result "so_dien_thoai" "No extraction pattern matched" 1)) ∧
    ¬ (create_failed_extraction_result "so_dien_thoai" "No extraction pattern matched" 0 =
        create_failed_extraction_result "so_dien_thoai" "No extraction pattern matched" 1) := by
  refine ⟨rfl, rfl, ?_⟩
  intro h
  have h2 := congrArg ExtractionResult.extraction_timestamp h
  simp [create_failed_extraction_result] at h2

/-- C8 amended: two calls with identical document and identical optional
reference record agree on every field in every component of the
`ExtractionResult` except the creation timestamp. -/
theorem C8_determinism_amended (doc : String → FieldStrategyOutcomes)
    (input_data : Option RefData) (t1 t2 : Nat) :
    ((extract_enhanced_fields doc input_data t1).extracted_fields.map
      (fun p => (p.1, p.2.eraseTimestamp))) =
    ((extract_enhanced_fields doc input_data t2).extracted_fields.map
      (fun p => (p.1, p.2.eraseTimestamp))) := by
  have h1 : (extract_enhanced_fields doc input_data t1).extracted_fields =
      FIELD_ORDER.map (fun x => (x, extract_single_field x (doc x) input_data t1)) := rfl
  have h2 : (extract_enhanced_fields doc input_data t2).extracted_fields =
      FIELD_ORDER.map (fun x => (x, extract_single_field x (doc x) input_data t2)) := rfl
  rw [h1, h2, List.map_map, List.map_map]
  congr 1
  funext x
  show (x, (extract_single_field x (doc x) input_data t1).eraseTimestamp) =
    (x, (extract_single_field x (doc x) input_data t2).eraseTimestamp)
  rw [esf_timestamp_independent x (doc x) input_data t1 t2]

/-- The counting loop of the extraction summary counts exactly the truthy and
falsy extracted values (over any starting accumulator). -/
theorem summaryCounts_aux (fields : List (String × ExtractionResult))
    (acc : Nat × Nat × Nat × Nat) :
    (fields.foldl summaryStep acc).1 =
      acc.1 + fields.countP (fun p => p.2.extracted_value.truthy) ∧
    (fields.foldl summaryStep acc).2.1 =
      acc.2.1 + fields.countP (fun p => ! p.2.extracted_value.truthy) := by
  induction fields generalizing acc with
  | nil => simp
  | cons p rest ih =>
    simp only [List.foldl_cons, List.countP_cons]
    obtain ⟨ih1, ih2⟩ := ih (summaryStep acc p)
    by_cases ht : p.2.extracted_value.truthy
    · have hs1 : (summaryStep acc p).1 = acc.1 + 1 := by
        unfold summaryStep
        rw [if_pos ht]
        split_ifs <;> rfl
      have hs2 : (summaryStep acc p).2.1 = acc.2.1 := by
        unfold summaryStep
        rw [if_pos ht]
        split_ifs <;> rfl
      rw [ih1, ih2, hs1, hs2]
      simp [ht]
      omega
    · have hs1 : (summaryStep acc p).1 = acc.1 := by
        unfold summaryStep
        rw [if_neg ht]
      have hs2 : (summaryStep acc p).2.1 = acc.2.1 + 1 := by
        unfold summaryStep
        rw [if_neg ht]
      rw [ih1, ih2, hs1, hs2]
      simp [ht]
      omega

/-- A boolean predicate and its negation partition a list. -/
theorem countP_add_countP_not {α : Type} (l : List α) (p : α → Bool) :
    l.countP p + l.countP (fun a => ! p a) = l.length := by
  induction l with
  | nil => rfl
  | cons x rest ih =>
    by_cases hx : p x <;> simp [List.countP_cons, hx] <;> omega

/-- C10: `successful_extractions` counts exactly the fields whose extracted
value is truthy (a verbatim pass-through string such as the unnormalizable
phone `"abc"` counts as a success, a member list normalizing to `[]` counts as
a failure), `successful + failed = total`, and
`success_rate = successful / total` for a non-empty field map. -/
theorem C10_summary_success_counts (fields : List (String × ExtractionResult)) (now : Nat)
    (hne : ¬ (fields = [])) :
    (generate_extraction_summary fields now).successful_extractions =
      fields.countP (fun p => p.2.extracted_value.truthy) ∧
    (generate_extraction_summary fields now).failed_extractions =
      fields.countP (fun p => ! p.2.extracted_value.truthy) ∧
    (generate_extraction_summary fields now).successful_extractions +
      (generate_extraction_summary fields now).failed_extractions =
      (generate_extraction_summary fields now).total_fields ∧
    (generate_extraction_summary fields now).success_rate =
      ((generate_extraction_summary fields now).successful_extractions : ℚ) /
        ((generate_extraction_summary fields now).total_fields : ℚ) ∧
    FieldValue.truthy (.str (PhoneNormalizer.normalize "abc")) = true ∧
    FieldValue.truthy (.members (MemberInfoNormalizer.normalize "xyz 123")) = false := by
  have hsucc : (generate_extraction_summary fields now).successful_extractions =
      (summaryCounts fields).1 := rfl
  have hfail : (generate_extraction_summary fields now).failed_extractions =
      (summaryCounts fields).2.1 := rfl
  have htot : (generate_extraction_summary fields now).total_fields = fields.length := rfl
  obtain ⟨h1, h2⟩ := summaryCounts_aux fields (0, 0, 0, 0)
  have hc1 : (summaryCounts fields).1 =
      fields.countP (fun p => p.2.extracted_value.truthy) := by
    unfold summaryCounts
    rw [h1]
    simp
  have hc2 : (summaryCounts fields).2.1 =
      fields.countP (fun p => ! p.2.extracted_value.truthy) := by
    unfold summaryCounts
    rw [h2]
    simp
  have hlen : fields.countP (fun p => p.2.extracted_value.truthy) +
      fields.countP (fun p => ! p.2.extracted_value.truthy) = fields.length :=
    countP_add_countP_not fields (fun p => p.2.extracted_value.truthy)
  have hpos : 0 < fields.length := List.length_pos.mpr hne
  have hrate : (generate_extraction_summary fields now).success_rate =
      ((summaryCounts fields).1 : ℚ) / (fields.length : ℚ) := by
    show (if fields.length > 0 then ((summaryCounts fields).1 : ℚ) / (fields.length : ℚ)
          else 0) = ((summaryCounts fields).1 : ℚ) / (fields.length : ℚ)
    rw [if_pos hpos]
  refine ⟨by rw [hsucc, hc1], by rw [hfail, hc2], ?_, ?_, by decide, by decide⟩
  · rw [hsucc, hfail, htot, hc1, hc2, hlen]
  · rw [hrate, hsucc, htot]

/-- A two-field map: a pass-through phone string (truthy) and an empty member
list (falsy). -/
def C10_sample_fields : List (String × ExtractionResult) :=
  [("so_dien_thoai",
    { field_name := "so_dien_thoai"
      extracted_value := .str (PhoneNormalizer.normalize "abc")
      confidence_score := 0
      quality_level := ExtractionQuality.poor
      extraction_method := "regex_pattern"
      extraction_timestamp := 0 }),
   ("thong_tin_thanh_vien",
    { field_name := "thong_tin_thanh_vien"
      extracted_value := .members (MemberInfoNormalizer.normalize "xyz 123")
      confidence_score := 0
      quality_level := ExtractionQuality.failed
      extraction_method := "none"
      extraction_timestamp := 0 })]

/-- Witness for C10 at the two-field sample map. -/
theorem C10_summary_success_counts_witness :
    (generate_extraction_summary C10_sample_fields 0).successful_extractions =
      C10_sample_fields.countP (fun p => p.2.extracted_value.truthy) ∧
    (generate_extraction_summary C10_sample_fields 0).success_rate =
      ((generate_extraction_summary C10_sample_fields 0).successful_extractions : ℚ) /
        ((generate_extraction_summary C10_sample_fields 0).total_fields : ℚ) :=
  ⟨(C10_summary_success_counts C10_sample_fields 0 (by decide)).1,
   (C10_summary_success_counts C10_sample_fields 0 (by decide)).2.2.2.1⟩
